import Mathlib

/-!
Verification of the VextLang language front end (lexer, parser error recovery,
semantic analyzer, type checker) against its natural-language specification.
The definitions below are a shallow embedding of the TypeScript sources
(`server/src/parser/lexer.ts`, `server/src/parser/parser.ts`,
`server/src/semantic/analyzer.ts`, `server/src/semantic/typeChecker.ts`).
JavaScript `Map` objects are modelled as association lists together with a
ghost `id : Nat` that mirrors JavaScript object identity (two maps with the
same `id` are the same mutable object).  JavaScript `undefined` on optional
fields is modelled with `Option`.  A thrown `TypeError` (reading a property
of `undefined`) is modelled with an explicit crash value.  Loops of the
lexer and the recursive walks are written with a fuel parameter; callers
supply fuel larger than every bound the loops can reach, so on every input
considered here the fuel never runs out.
-/

namespace VL

/-- Source `{start, end}` byte-offset range of an AST node (`end` is spelled `stop`). -/
structure Range0 where
  start : Int
  stop : Int
deriving DecidableEq, Repr

/-! ## Lexer (server/src/parser/lexer.ts) -/

inductive TokenType where
  | kwFn | kwLet | kwConst | kwStruct | kwEnum | kwIf | kwElse | kwFor | kwWhile
  | kwBreak | kwContinue | kwReturn | kwMatch | kwWhere | kwAsync | kwAwait
  | kwTrait | kwImpl | kwImport | kwPackage | kwMod
  | kwInt | kwFloat | kwBool | kwString | kwChar | kwVoid | kwOption | kwResult | kwVec
  | booleanLiteral | integerLiteral | floatLiteral | stringLiteral | charLiteral
  | identifier
  | plus | minus | star | slash | percent
  | assign | plusAssign | minusAssign | starAssign | slashAssign | percentAssign
  | equal | notEqual | less | lessEqual | greater | greaterEqual
  | andOp | orOp | notOp
  | leftParen | rightParen | leftBrace | rightBrace | leftBracket | rightBracket
  | semicolon | comma | colon | dot | arrow | doubleColon | question
  | lineComment | blockComment
  | eofTok | errorTok
deriving DecidableEq, Repr

structure Token where
  type : TokenType
  value : String
  line : Int
  column : Int
  offset : Int
deriving DecidableEq, Repr

structure LexerError where
  message : String
  line : Int
  column : Int
  offset : Int
deriving DecidableEq, Repr

/-- Mutable state of the `Lexer` class: source, scan position, 1-based
line/column, accumulated errors. -/
structure LexSt where
  src : List Char
  cur : Nat
  line : Nat
  col : Nat
  errs : List LexerError

def LexSt.len (s : LexSt) : Nat := s.src.length

namespace Lexer

/-- Source `this.peek(offset)`: character at `current + offset`, `’\0’` past the end. -/
def peekCh (s : LexSt) (off : Nat) : Char :=
  match s.src.get? (s.cur + off) with
  | some c => c
  | none => '\x00'

/-- Source `this.advance()`. -/
def advance (s : LexSt) : LexSt :=
  if s.cur < s.src.length then
    if peekCh s 0 = '\n' then
      { s with line := s.line + 1, col := 1, cur := s.cur + 1 }
    else
      { s with col := s.col + 1, cur := s.cur + 1 }
  else s

def isWhitespaceCh (c : Char) : Bool :=
  c = ' ' || c = '\t' || c = '\r' || c = '\n'

def isDigitCh (c : Char) : Bool := '0' ≤ c && c ≤ '9'

def isIdentifierStart (c : Char) : Bool :=
  ('a' ≤ c && c ≤ 'z') || ('A' ≤ c && c ≤ 'Z') || c = '_'

def isIdentifierPart (c : Char) : Bool := isIdentifierStart c || isDigitCh c

/-- Source `this.source.substring(a, b)`. -/
def substring (s : LexSt) (a b : Nat) : String :=
  String.mk ((s.src.drop a).take (b - a))

/-- Source `this.createToken(type, value)`: column/offset are computed by
subtracting the value length (as JavaScript numbers, hence `Int`). -/
def createToken (s : LexSt) (t : TokenType) (v : String) : Token :=
  { type := t, value := v, line := (s.line : Int),
    column := (s.col : Int) - (v.length : Int),
    offset := (s.cur : Int) - (v.length : Int) }

/-- Source `this.addError(message)`. -/
def addLexError (s : LexSt) (msg : String) : LexSt :=
  { s with errs := s.errs ++ [⟨msg, (s.line : Int), (s.col : Int), (s.cur : Int)⟩] }

def skipWhitespace : Nat → LexSt → LexSt
  | 0, s => s
  | fuel + 1, s =>
    if s.cur < s.len && isWhitespaceCh (peekCh s 0) then
      skipWhitespace fuel (advance s)
    else s

def getKeywordType (v : String) : TokenType :=
  match v with
  | "fn" => .kwFn | "let" => .kwLet | "const" => .kwConst | "struct" => .kwStruct
  | "enum" => .kwEnum | "if" => .kwIf | "else" => .kwElse | "for" => .kwFor
  | "while" => .kwWhile | "break" => .kwBreak | "continue" => .kwContinue
  | "return" => .kwReturn | "match" => .kwMatch | "where" => .kwWhere
  | "async" => .kwAsync | "await" => .kwAwait | "trait" => .kwTrait
  | "impl" => .kwImpl | "import" => .kwImport | "package" => .kwPackage
  | "mod" => .kwMod | "int" => .kwInt | "float" => .kwFloat | "bool" => .kwBool
  | "string" => .kwString | "char" => .kwChar | "void" => .kwVoid
  | "Option" => .kwOption | "Result" => .kwResult | "Vec" => .kwVec
  | "true" => .booleanLiteral | "false" => .booleanLiteral
  | _ => .identifier

def lineCommentLoop : Nat → LexSt → LexSt
  | 0, s => s
  | fuel + 1, s =>
    if s.cur < s.len && peekCh s 0 ≠ '\n' then lineCommentLoop fuel (advance s) else s

def lexLineComment (fuel : Nat) (s0 : LexSt) : Token × LexSt :=
  let start := s0.cur
  let s := advance (advance s0)
  let s := lineCommentLoop fuel s
  let v := substring s start s.cur
  (createToken s .lineComment v, s)

def blockCommentLoop : Nat → LexSt → Nat → LexSt × Nat
  | 0, s, d => (s, d)
  | fuel + 1, s, d =>
    if s.cur < s.len && d > 0 then
      if peekCh s 0 = '/' && peekCh s 1 = '*' then
        blockCommentLoop fuel (advance (advance s)) (d + 1)
      else if peekCh s 0 = '*' && peekCh s 1 = '/' then
        blockCommentLoop fuel (advance (advance s)) (d - 1)
      else
        blockCommentLoop fuel (advance s) d
    else (s, d)

def lexBlockComment (fuel : Nat) (s0 : LexSt) : Token × LexSt :=
  let start := s0.cur
  let s := advance (advance s0)
  let sd := blockCommentLoop fuel s 1
  let s := if sd.2 > 0 then addLexError sd.1 "Unterminated block comment" else sd.1
  let v := substring s start s.cur
  (createToken s .blockComment v, s)

def stringLoop : Nat → LexSt → LexSt
  | 0, s => s
  | fuel + 1, s =>
    if s.cur < s.len && peekCh s 0 ≠ '"' then
      if peekCh s 0 = '\\' then
        let s := advance s
        let s := if s.cur < s.len then advance s else s
        stringLoop fuel s
      else stringLoop fuel (advance s)
    else s

def lexStringLiteral (fuel : Nat) (s0 : LexSt) : Token × LexSt :=
  let start := s0.cur
  let s := advance s0
  let s := stringLoop fuel s
  if s.cur ≥ s.len then
    let s := addLexError s "Unterminated string literal"
    let v := substring s start s.len
    (createToken s .errorTok v, s)
  else
    let s := advance s
    let v := substring s start s.cur
    (createToken s .stringLiteral v, s)

def lexCharLiteral (s0 : LexSt) : Token × LexSt :=
  let start := s0.cur
  let s := advance s0
  let s :=
    if s.cur < s.len && peekCh s 0 = '\\' then
      let s := advance s
      if s.cur < s.len then advance s else s
    else if s.cur < s.len then advance s
    else s
  if s.cur ≥ s.len || peekCh s 0 ≠ '\x27' then
    let s := addLexError s "Unterminated character literal"
    let v := substring s start s.len
    (createToken s .errorTok v, s)
  else
    let s := advance s
    let v := substring s start s.cur
    (createToken s .charLiteral v, s)

def digitsLoop : Nat → LexSt → LexSt
  | 0, s => s
  | fuel + 1, s =>
    if s.cur < s.len && isDigitCh (peekCh s 0) then digitsLoop fuel (advance s) else s

def lexNumber (fuel : Nat) (s0 : LexSt) : Token × LexSt :=
  let start := s0.cur
  let s := digitsLoop fuel s0
  let fs :=
    if s.cur < s.len && peekCh s 0 = '.' then
      (true, digitsLoop fuel (advance s))
    else (false, s)
  let fs :=
    if fs.2.cur < fs.2.len && (peekCh fs.2 0 = 'e' || peekCh fs.2 0 = 'E') then
      let s := advance fs.2
      let s :=
        if s.cur < s.len && (peekCh s 0 = '+' || peekCh s 0 = '-') then advance s else s
      (true, digitsLoop fuel s)
    else fs
  let v := substring fs.2 start fs.2.cur
  (createToken fs.2 (if fs.1 then .floatLiteral else .integerLiteral) v, fs.2)

def identLoop : Nat → LexSt → LexSt
  | 0, s => s
  | fuel + 1, s =>
    if s.cur < s.len && isIdentifierPart (peekCh s 0) then identLoop fuel (advance s) else s

def lexIdentifier (fuel : Nat) (s0 : LexSt) : Token × LexSt :=
  let start := s0.cur
  let s := identLoop fuel s0
  let v := substring s start s.cur
  (createToken s (getKeywordType v) v, s)

def singleCharToken (c : Char) : Option TokenType :=
  match c with
  | '+' => some .plus | '-' => some .minus | '*' => some .star | '/' => some .slash
  | '%' => some .percent | '=' => some .assign | '<' => some .less | '>' => some .greater
  | '!' => some .notOp | '(' => some .leftParen | ')' => some .rightParen
  | '{' => some .leftBrace | '}' => some .rightBrace
  | '[' => some .leftBracket | ']' => some .rightBracket
  | ';' => some .semicolon | ',' => some .comma | ':' => some .colon
  | '.' => some .dot | '?' => some .question
  | _ => none

def lexOperatorOrDelimiter (s : LexSt) : Token × LexSt :=
  let c := peekCh s 0
  let c1 := peekCh s 1
  let c2 := peekCh s 2
  if c = '<' && c1 = '<' && c2 = '=' then
    let s := advance (advance (advance s))
    (createToken s .errorTok "<<=", s)
  else if c = '=' && c1 = '=' then
    let s := advance (advance s); (createToken s .equal "==", s)
  else if c = '!' && c1 = '=' then
    let s := advance (advance s); (createToken s .notEqual "!=", s)
  else if c = '<' && c1 = '=' then
    let s := advance (advance s); (createToken s .lessEqual "<=", s)
  else if c = '>' && c1 = '=' then
    let s := advance (advance s); (createToken s .greaterEqual ">=", s)
  else if c = '&' && c1 = '&' then
    let s := advance (advance s); (createToken s .andOp "&&", s)
  else if c = '|' && c1 = '|' then
    let s := advance (advance s); (createToken s .orOp "||", s)
  else if c = '+' && c1 = '=' then
    let s := advance (advance s); (createToken s .plusAssign "+=", s)
  else if c = '-' && c1 = '=' then
    let s := advance (advance s); (createToken s .minusAssign "-=", s)
  else if c = '*' && c1 = '=' then
    let s := advance (advance s); (createToken s .starAssign "*=", s)
  else if c = '/' && c1 = '=' then
    let s := advance (advance s); (createToken s .slashAssign "/=", s)
  else if c = '%' && c1 = '=' then
    let s := advance (advance s); (createToken s .percentAssign "%=", s)
  else if c = '-' && c1 = '>' then
    let s := advance (advance s); (createToken s .arrow "->", s)
  else if c = ':' && c1 = ':' then
    let s := advance (advance s); (createToken s .doubleColon "::", s)
  else
    match singleCharToken c with
    | some t =>
      let s := advance s
      (createToken s t (String.mk [c]), s)
    | none =>
      let s := addLexError s ("Unexpected character: " ++ String.mk [c])
      let s := advance s
      (createToken s .errorTok (String.mk [c]), s)

/-- Source `this.nextToken()`. -/
def nextToken (fuel : Nat) (s : LexSt) : Token × LexSt :=
  let s := skipWhitespace fuel s
  if s.cur ≥ s.len then (createToken s .eofTok "", s)
  else
    let c := peekCh s 0
    if c = '/' && peekCh s 1 = '/' then lexLineComment fuel s
    else if c = '/' && peekCh s 1 = '*' then lexBlockComment fuel s
    else if c = '"' then lexStringLiteral fuel s
    else if c = '\x27' then lexCharLiteral s
    else if isDigitCh c then lexNumber fuel s
    else if isIdentifierStart c then lexIdentifier fuel s
    else lexOperatorOrDelimiter s

def tokenizeLoop : Nat → LexSt → List Token → List Token × LexSt
  | 0, s, acc => (acc, s)
  | fuel + 1, s, acc =>
    if s.cur < s.len then
      let ts := nextToken fuel s
      let acc := if ts.1.type ≠ .errorTok then acc ++ [ts.1] else acc
      if ts.1.type = .eofTok then (acc, ts.2)
      else tokenizeLoop fuel ts.2 acc
    else (acc, s)

structure LexResult where
  tokens : List Token
  errors : List LexerError
deriving DecidableEq, Repr

/-- Source `Lexer.tokenize()`: scan the whole source; ERROR-kind tokens are dropped
from the stream.  The fuel bounds every loop; each loop iteration advances
the scan position by at least one character, so `2 * length + 4` is ample. -/
def tokenize (source : String) : LexResult :=
  let s0 : LexSt := { src := source.data, cur := 0, line := 1, col := 1, errs := [] }
  let r := tokenizeLoop (source.length * 2 + 4) s0 []
  { tokens := r.1, errors := r.2.errs }

end Lexer

/-! ## Parser driver helpers and synchronize (server/src/parser/parser.ts) -/

/-- A thrown JavaScript error: a `TypeError` from reading a property of
`undefined`, or exhaustion of the call stack / fuel. -/
inductive JsCrash where
  | typeErrorUndefined
  | fuelOut
deriving DecidableEq, Repr

namespace Parser

/-- Source `this.peek()` = `this.tokens[this.current]`; `none` models `undefined`. -/
def peekTok (tokens : List Token) (current : Nat) : Option Token :=
  tokens.get? current

/-- Source `this.previous()` = `this.tokens[this.current - 1]` (index `-1` is
`undefined`). -/
def previousTok (tokens : List Token) (current : Nat) : Option Token :=
  if current = 0 then none else tokens.get? (current - 1)

/-- Source `this.isAtEnd()` = `this.peek().type === TokenType.EOF`; reading `.type`
of `undefined` throws a `TypeError`. -/
def isAtEnd (tokens : List Token) (current : Nat) : Except JsCrash Bool :=
  match peekTok tokens current with
  | none => .error .typeErrorUndefined
  | some t => .ok (t.type = .eofTok)

/-- The token kinds at which `synchronize` stops skipping. -/
def isSyncStarter (t : TokenType) : Bool :=
  match t with
  | .kwFn | .kwStruct | .kwEnum | .kwLet | .kwConst
  | .kwIf | .kwFor | .kwWhile | .kwReturn => true
  | _ => false

/-- The `while (!this.isAtEnd())` loop of `synchronize`: return once the
just-consumed token is a semicolon or the next token is a construct
starter; `.error` propagates a thrown `TypeError` from `peek()`. -/
def syncLoop : Nat → List Token → Nat → Except JsCrash Nat
  | 0, _, _ => .error .fuelOut
  | fuel + 1, tokens, cur =>
    match isAtEnd tokens cur with
    | .error e => .error e
    | .ok true => .ok cur
    | .ok false =>
      match previousTok tokens cur with
      | none => .error .typeErrorUndefined
      | some prev =>
        if prev.type = .semicolon then .ok cur
        else
          match peekTok tokens cur with
          | none => .error .typeErrorUndefined
          | some nt =>
            if isSyncStarter nt.type then .ok cur
            else syncLoop fuel tokens (cur + 1)

/-- Source `this.synchronize()`: one `advance()` (a no-op at EOF), then the skip
loop.  Returns the final value of `this.current`. -/
def synchronize (fuel : Nat) (tokens : List Token) (current : Nat) :
    Except JsCrash Nat :=
  match isAtEnd tokens current with
  | .error e => .error e
  | .ok atEnd => syncLoop fuel tokens (if atEnd then current else current + 1)

/-- Stop condition of the skip loop at position `p`: the token just consumed
is a semicolon, or the next token is a construct starter or EOF (or the
position is past the end). -/
def syncStopB (tokens : List Token) (p : Nat) : Bool :=
  (match tokens.get? p with
   | none => true
   | some t => t.type = .eofTok || isSyncStarter t.type) ||
  (match (if p = 0 then none else tokens.get? (p - 1)) with
   | some t => t.type = .semicolon
   | none => false)

/-- First position `≥ p` satisfying `syncStopB`. -/
def firstStop : Nat → List Token → Nat → Nat
  | 0, _, p => p
  | fuel + 1, tokens, p =>
    if syncStopB tokens p then p else firstStop fuel tokens (p + 1)

/-- Clean description of `synchronize`: no advance when already at EOF,
otherwise one unconditional advance and then the first stopping position. -/
def syncSpec (tokens : List Token) (current : Nat) : Nat :=
  match tokens.get? current with
  | some t =>
    if t.type = .eofTok then current
    else firstStop (tokens.length + 1) tokens (current + 1)
  | none => current

end Parser

/-! ## AST (server/src/parser/parser.ts interfaces)

The parser produces plain objects; `Statement` is one bag of optional
fields discriminated by its `kind` string, and declaration nodes
(`type: ’function’ | ’struct’ | ’enum’ | ’variable’`) carry no `kind`
field at all, so a `switch (stmt.kind)` over such a node matches no case.
`Expression.value` is dynamically typed (`any`); `ExprVal` enumerates the
shapes the program stores there. -/

inductive TypeExpr where
  | mk (baseType : String) (genericArgs : Option (List TypeExpr))
       (isReference : Option Bool) (isMutable : Option Bool)
       (range : Range0) (line column : Int)

def TypeExpr.baseType : TypeExpr → String
  | .mk b _ _ _ _ _ _ => b

def TypeExpr.genericArgs : TypeExpr → Option (List TypeExpr)
  | .mk _ g _ _ _ _ _ => g

def TypeExpr.range : TypeExpr → Range0
  | .mk _ _ _ _ r _ _ => r

def TypeExpr.line : TypeExpr → Int
  | .mk _ _ _ _ _ l _ => l

def TypeExpr.column : TypeExpr → Int
  | .mk _ _ _ _ _ _ c => c

structure Param where
  name : String
  type : TypeExpr

structure Field where
  name : String
  type : TypeExpr

structure EnumVariant where
  name : String
  fields : Option (List Field)

structure TypeParameter where
  name : String
  constraint : Option TypeExpr

mutual

inductive Node where
  | funcDecl (f : FunctionDecl)
  | structDecl (s : StructDecl)
  | enumDecl (e : EnumDecl)
  | varDecl (v : VariableDecl)
  | stmt (s : Stmt)

inductive FunctionDecl where
  | mk (name : String) (parameters : List Param) (returnType : Option TypeExpr)
       (body : List Node) (isAsync : Bool) (range : Range0) (line column : Int)

inductive StructDecl where
  | mk (name : String) (fields : List Field) (generics : Option (List TypeParameter))
       (range : Range0) (line column : Int)

inductive EnumDecl where
  | mk (name : String) (variants : List EnumVariant) (generics : Option (List TypeParameter))
       (range : Range0) (line column : Int)

inductive VariableDecl where
  | mk (name : String) (varType : Option TypeExpr) (value : Option Expr)
       (isConst : Bool) (range : Range0) (line column : Int)

inductive Stmt where
  | mk (kind : String) (expression : Option Expr) (condition : Option Expr)
       (thenBody : Option (List Node)) (elseBody : Option (List Node))
       (body : Option (List Node)) (cases : Option (List MatchCase))
       (collection : Option Expr) (value : Option Expr)
       (name : Option String) (parameters : Option (List Param))
       (returnType : Option TypeExpr) (fields : Option (List Field))
       (variants : Option (List EnumVariant))
       (range : Range0) (line column : Int)

inductive Expr where
  | mk (kind : String) (operator : Option String) (left : Option Expr)
       (right : Option Expr) (value : ExprVal) (range : Range0) (line column : Int)

inductive ExprVal where
  | undef
  | str (s : String)
  | numInt (n : Int)
  | numNonInt
  | exprList (es : List Expr)
  | onePar (e : Expr)
  | nodeList (ns : List Node)

inductive MatchCase where
  | mk (pattern : Expr) (guard : Option Expr) (body : List Node)

end

def FunctionDecl.name : FunctionDecl → String
  | .mk n _ _ _ _ _ _ _ => n

def FunctionDecl.parameters : FunctionDecl → List Param
  | .mk _ p _ _ _ _ _ _ => p

def FunctionDecl.returnType : FunctionDecl → Option TypeExpr
  | .mk _ _ r _ _ _ _ _ => r

def FunctionDecl.body : FunctionDecl → List Node
  | .mk _ _ _ b _ _ _ _ => b

def FunctionDecl.isAsync : FunctionDecl → Bool
  | .mk _ _ _ _ a _ _ _ => a

def FunctionDecl.range : FunctionDecl → Range0
  | .mk _ _ _ _ _ r _ _ => r

def FunctionDecl.line : FunctionDecl → Int
  | .mk _ _ _ _ _ _ l _ => l

def FunctionDecl.column : FunctionDecl → Int
  | .mk _ _ _ _ _ _ _ c => c

def StructDecl.name : StructDecl → String
  | .mk n _ _ _ _ _ => n

def StructDecl.fields : StructDecl → List Field
  | .mk _ f _ _ _ _ => f

def StructDecl.generics : StructDecl → Option (List TypeParameter)
  | .mk _ _ g _ _ _ => g

def StructDecl.range : StructDecl → Range0
  | .mk _ _ _ r _ _ => r

def EnumDecl.name : EnumDecl → String
  | .mk n _ _ _ _ _ => n

def EnumDecl.variants : EnumDecl → List EnumVariant
  | .mk _ v _ _ _ _ => v

def EnumDecl.generics : EnumDecl → Option (List TypeParameter)
  | .mk _ _ g _ _ _ => g

def EnumDecl.range : EnumDecl → Range0
  | .mk _ _ _ r _ _ => r

def VariableDecl.name : VariableDecl → String
  | .mk n _ _ _ _ _ _ => n

def VariableDecl.varType : VariableDecl → Option TypeExpr
  | .mk _ t _ _ _ _ _ => t

def VariableDecl.value : VariableDecl → Option Expr
  | .mk _ _ v _ _ _ _ => v

def VariableDecl.isConst : VariableDecl → Bool
  | .mk _ _ _ c _ _ _ => c

def VariableDecl.range : VariableDecl → Range0
  | .mk _ _ _ _ r _ _ => r

def Stmt.kind : Stmt → String
  | .mk k _ _ _ _ _ _ _ _ _ _ _ _ _ _ _ _ => k

def Stmt.expression : Stmt → Option Expr
  | .mk _ e _ _ _ _ _ _ _ _ _ _ _ _ _ _ _ => e

def Stmt.condition : Stmt → Option Expr
  | .mk _ _ c _ _ _ _ _ _ _ _ _ _ _ _ _ _ => c

def Stmt.thenBody : Stmt → Option (List Node)
  | .mk _ _ _ t _ _ _ _ _ _ _ _ _ _ _ _ _ => t

def Stmt.elseBody : Stmt → Option (List Node)
  | .mk _ _ _ _ e _ _ _ _ _ _ _ _ _ _ _ _ => e

def Stmt.body : Stmt → Option (List Node)
  | .mk _ _ _ _ _ b _ _ _ _ _ _ _ _ _ _ _ => b

def Stmt.cases : Stmt → Option (List MatchCase)
  | .mk _ _ _ _ _ _ c _ _ _ _ _ _ _ _ _ _ => c

def Stmt.collection : Stmt → Option Expr
  | .mk _ _ _ _ _ _ _ c _ _ _ _ _ _ _ _ _ => c

def Stmt.value : Stmt → Option Expr
  | .mk _ _ _ _ _ _ _ _ v _ _ _ _ _ _ _ _ => v

def Stmt.name : Stmt → Option String
  | .mk _ _ _ _ _ _ _ _ _ n _ _ _ _ _ _ _ => n

def Stmt.parameters : Stmt → Option (List Param)
  | .mk _ _ _ _ _ _ _ _ _ _ p _ _ _ _ _ _ => p

def Stmt.returnType : Stmt → Option TypeExpr
  | .mk _ _ _ _ _ _ _ _ _ _ _ r _ _ _ _ _ => r

def Stmt.fields : Stmt → Option (List Field)
  | .mk _ _ _ _ _ _ _ _ _ _ _ _ f _ _ _ _ => f

def Stmt.variants : Stmt → Option (List EnumVariant)
  | .mk _ _ _ _ _ _ _ _ _ _ _ _ _ v _ _ _ => v

def Stmt.range : Stmt → Range0
  | .mk _ _ _ _ _ _ _ _ _ _ _ _ _ _ r _ _ => r

def Stmt.line : Stmt → Int
  | .mk _ _ _ _ _ _ _ _ _ _ _ _ _ _ _ l _ => l

def Stmt.column : Stmt → Int
  | .mk _ _ _ _ _ _ _ _ _ _ _ _ _ _ _ _ c => c

def Expr.kind : Expr → String
  | .mk k _ _ _ _ _ _ _ => k

def Expr.operator : Expr → Option String
  | .mk _ o _ _ _ _ _ _ => o

def Expr.left : Expr → Option Expr
  | .mk _ _ l _ _ _ _ _ => l

def Expr.right : Expr → Option Expr
  | .mk _ _ _ r _ _ _ _ => r

def Expr.value : Expr → ExprVal
  | .mk _ _ _ _ v _ _ _ => v

def Expr.range : Expr → Range0
  | .mk _ _ _ _ _ r _ _ => r

def Expr.line : Expr → Int
  | .mk _ _ _ _ _ _ l _ => l

def Expr.column : Expr → Int
  | .mk _ _ _ _ _ _ _ c => c

def MatchCase.pattern : MatchCase → Expr
  | .mk p _ _ => p

def MatchCase.guard : MatchCase → Option Expr
  | .mk _ g _ => g

def MatchCase.body : MatchCase → List Node
  | .mk _ _ b => b

/-- Source `expr.value as string` (non-string shapes never occur at the call sites). -/
def ExprVal.asString : ExprVal → String
  | .str s => s
  | _ => ""

/-- Source `expr.value as Expression[] || []` (`undefined` yields `[]`). -/
def ExprVal.asExprList : ExprVal → List Expr
  | .exprList es => es
  | _ => []

/-- Source `expr.value as Statement[] || []` for block expressions. -/
def ExprVal.asNodeList : ExprVal → List Node
  | .nodeList ns => ns
  | _ => []

/-! Computable size of the AST, used as recursion fuel for the tree walks
(the recursion depth of any walk is bounded by the size). -/

mutual

def nodeSize : Node → Nat
  | .funcDecl f => funcDeclSize f + 1
  | .structDecl _ => 1
  | .enumDecl _ => 1
  | .varDecl v => varDeclSize v + 1
  | .stmt s => stmtSize s + 1

def funcDeclSize : FunctionDecl → Nat
  | .mk _ _ _ body _ _ _ _ => nodeListSize body + 1

def varDeclSize : VariableDecl → Nat
  | .mk _ _ value _ _ _ _ => optExprSize value + 1

def stmtSize : Stmt → Nat
  | .mk _ e c tb eb b cs col v _ _ _ _ _ _ _ _ =>
    optExprSize e + optExprSize c + optNodesSize tb + optNodesSize eb +
    optNodesSize b + optCasesSize cs + optExprSize col + optExprSize v + 1

def exprSize : Expr → Nat
  | .mk _ _ l r v _ _ _ => optExprSize l + optExprSize r + exprValSize v + 1

def exprValSize : ExprVal → Nat
  | .exprList es => exprListSize es + 1
  | .onePar e => exprSize e + 1
  | .nodeList ns => nodeListSize ns + 1
  | _ => 1

def matchCaseSize : MatchCase → Nat
  | .mk p g b => exprSize p + optExprSize g + nodeListSize b + 1

def optExprSize : Option Expr → Nat
  | some e => exprSize e + 1
  | none => 1

def optNodesSize : Option (List Node) → Nat
  | some ns => nodeListSize ns + 1
  | none => 1

def optCasesSize : Option (List MatchCase) → Nat
  | some cs => caseListSize cs + 1
  | none => 1

def nodeListSize : List Node → Nat
  | [] => 1
  | n :: ns => nodeSize n + nodeListSize ns

def exprListSize : List Expr → Nat
  | [] => 1
  | e :: es => exprSize e + exprListSize es

def caseListSize : List MatchCase → Nat
  | [] => 1
  | c :: cs => matchCaseSize c + caseListSize cs

end

/-! ## Type checker (server/src/semantic/typeChecker.ts) -/

inductive TypeKind where
  | primitive | structKind | enumKind | functionKind | generic | unknown | error
deriving DecidableEq, Repr

/-- The `Type` interface; `genericArgs`, `isReference`, `isMutable` are
optional properties, and `undefined` is distinguished from present values
by the strict comparisons in `typesEqual`. -/
inductive Ty where
  | mk (kind : TypeKind) (name : String) (genericArgs : Option (List Ty))
       (isReference : Option Bool) (isMutable : Option Bool)

def Ty.kind : Ty → TypeKind
  | .mk k _ _ _ _ => k

def Ty.name : Ty → String
  | .mk _ n _ _ _ => n

def Ty.genericArgs : Ty → Option (List Ty)
  | .mk _ _ g _ _ => g

structure FunctionTy where
  parameters : List Ty
  returnType : Ty
  isAsync : Bool

/-- A JavaScript `Map<string, α>`: insertion-ordered entries plus a ghost
`id` mirroring the identity of the underlying mutable object (copies made
with `new Map(m)` get a fresh `id`; spreading a context object into a new
one keeps the same maps, hence the same `id`s). -/
structure MapRef (α : Type) where
  id : Nat
  entries : List (String × α)

def mapGet {α : Type} (m : MapRef α) (k : String) : Option α :=
  (m.entries.find? (fun p => p.1 = k)).map (·.2)

def mapSet {α : Type} (m : MapRef α) (k : String) (v : α) : MapRef α :=
  if (m.entries.find? (fun p => p.1 = k)).isSome then
    { m with entries := m.entries.map (fun p => if p.1 = k then (k, v) else p) }
  else
    { m with entries := m.entries ++ [(k, v)] }

structure TypeContext where
  vars : MapRef Ty
  functions : MapRef FunctionTy
  types : MapRef Ty
  returnType : Option Ty
  inLoop : Bool
  inFunction : Bool

structure TypeErrorRec where
  message : String
  range : Range0
  line : Int
  column : Int
deriving DecidableEq, Repr

/-- Instance state of the `TypeChecker` class: the error list, the
`globalContext` created once in the constructor, a counter for fresh map
identities, and a flag recording a thrown `TypeError` (execution after a
crash is unreachable for every input considered in this file). -/
structure TCState where
  errors : List TypeErrorRec
  globalContext : TypeContext
  nextId : Nat
  crashed : Bool

namespace TypeChecker

def createPrimitiveType (name : String) : Ty := .mk .primitive name none none none

def createGenericType (name : String) (genericArgs : List Ty) : Ty :=
  .mk .generic name (some genericArgs) none none

def createUnknownType : Ty := .mk .unknown "unknown" none none none

def createErrorType : Ty := .mk .error "error" none none none

mutual

/-- Source `typesEqual`: structural equality; a present-but-empty generic argument
list is truthy in JavaScript, so it is distinguished from an absent one. -/
def typesEqual : Ty → Ty → Bool
  | .mk k1 n1 g1 r1 m1, .mk k2 n2 g2 r2 m2 =>
    if k1 ≠ k2 then false
    else if n1 ≠ n2 then false
    else if r1 ≠ r2 then false
    else if m1 ≠ m2 then false
    else
      match g1, g2 with
      | some l1, some l2 => typesEqualList l1 l2
      | some _, none => false
      | none, some _ => false
      | none, none => true

def typesEqualList : List Ty → List Ty → Bool
  | [], [] => true
  | a :: as1, b :: bs => typesEqual a b && typesEqualList as1 bs
  | _, _ => false

end

def addTCError (st : TCState) (message : String) (range : Range0)
    (line column : Int) : TCState :=
  { st with errors := st.errors ++ [⟨message, range, line, column⟩] }

def checkTypeCompatibility (st : TCState) (actual expected : Ty)
    (range : Range0) (line column : Int) : TCState :=
  if ¬ typesEqual actual expected then
    addTCError st ("Type mismatch: expected \x27" ++ expected.name ++
      "\x27, got \x27" ++ actual.name ++ "\x27") range line column
  else st

def checkBooleanType (st : TCState) (t : Ty) (range : Range0)
    (line column : Int) : TCState :=
  if t.name ≠ "bool" then
    addTCError st ("Expected boolean type, got \x27" ++ t.name ++ "\x27")
      range line column
  else st

def checkIterableType (st : TCState) (t : Ty) (range : Range0)
    (line column : Int) : TCState :=
  if t.name ≠ "Vec" && t.name ≠ "string" then
    addTCError st ("Expected iterable type (Vec or string), got \x27" ++
      t.name ++ "\x27") range line column
  else st

def inferArithmeticType (st : TCState) (l r : Ty) (range : Range0)
    (line column : Int) : Ty × TCState :=
  if l.name = "float" || r.name = "float" then (createPrimitiveType "float", st)
  else if l.name = "int" && r.name = "int" then (createPrimitiveType "int", st)
  else
    (createErrorType,
     addTCError st ("Cannot perform arithmetic on types \x27" ++ l.name ++
       "\x27 and \x27" ++ r.name ++ "\x27") range line column)

def getArrayElementType (arrayType : Ty) : Ty :=
  match arrayType.genericArgs with
  | some (t :: _) => if arrayType.name = "Vec" then t
      else if arrayType.name = "string" then createPrimitiveType "char"
      else createUnknownType
  | _ =>
    if arrayType.name = "string" then createPrimitiveType "char"
    else createUnknownType

/-- Source `lookupStructField`: the source is a stub that always returns unknown. -/
def lookupStructField (_structType : Ty) (_fieldName : String) : Ty :=
  createUnknownType

/-- Source `lookupEnumVariant`: the source is a stub that always returns unknown. -/
def lookupEnumVariant (_enumType : Ty) (_variantName : String) : Ty :=
  createUnknownType

def primitiveTypeNames : List String := ["int", "float", "bool", "string", "char", "void"]

/-- Source `lookupType`: primitives, then `this.globalContext.types`, else error. -/
def lookupType (st : TCState) (name : String) : Ty :=
  if primitiveTypeNames.contains name then createPrimitiveType name
  else
    match mapGet st.globalContext.types name with
    | some t => t
    | none => createErrorType

mutual

/-- Source `parseTypeExpression` (reads `this.globalContext.types` only). -/
def parseTypeExpression (st : TCState) (typeExpr : TypeExpr) : Ty :=
  match typeExpr with
  | .mk baseName gargs _ _ _ _ _ =>
    let baseType := lookupType st baseName
    if baseType.kind = .error then createErrorType
    else
      match gargs with
      | some l => createGenericType baseType.name (parseTypeExprList st l)
      | none => baseType

def parseTypeExprList (st : TCState) : List TypeExpr → List Ty
  | [] => []
  | t :: ts => parseTypeExpression st t :: parseTypeExprList st ts

end

def lookupVariableType (st : TCState) (name : String) (ctx : TypeContext)
    (range : Range0) (line column : Int) : Ty × TCState :=
  match mapGet ctx.vars name with
  | some t => (t, st)
  | none =>
    (createErrorType,
     addTCError st ("Undefined variable: \x27" ++ name ++ "\x27") range line column)

/-- Source `inferLiteralType(value)`: dispatch on the dynamic type of the literal
value.  The parser always stores the token text (a string), so numeric
literal tokens fall through to `unknown`. -/
def strStartsWithChar (s : String) (c : Char) : Bool :=
  match s.data with
  | [] => false
  | d :: _ => d = c

def inferLiteralType (value : ExprVal) : Ty :=
  match value with
  | .str s =>
    if strStartsWithChar s '"' || strStartsWithChar s '\x27' then createPrimitiveType "string"
    else if s = "true" || s = "false" then createPrimitiveType "bool"
    else createUnknownType
  | .numInt _ => createPrimitiveType "int"
  | .numNonInt => createPrimitiveType "float"
  | _ => createUnknownType

/-- Source `{ ...context, inLoop: true }` in the `for`/`while` cases: a shallow
object copy — the three maps keep their identity. -/
def loopContextOf (ctx : TypeContext) : TypeContext := { ctx with inLoop := true }

mutual

def inferExpressionType : Nat → Expr → TypeContext → String → TCState → Ty × TCState
  | 0, _, _, _, st => (createUnknownType, st)
  | fuel + 1, e, ctx, uri, st =>
    match e.kind with
    | "literal" => (inferLiteralType e.value, st)
    | "identifier" => lookupVariableType st e.value.asString ctx e.range e.line e.column
    | "binary" => inferBinaryExpressionType fuel e ctx uri st
    | "unary" => inferUnaryExpressionType fuel e ctx uri st
    | "call" => inferCallExpressionType fuel e ctx uri st
    | "member_access" => inferMemberAccessType fuel e ctx uri st
    | "index_access" => inferIndexAccessType fuel e ctx uri st
    | "parenthesized" =>
      match e.value with
      | .onePar inner => inferExpressionType fuel inner ctx uri st
      | _ => (createUnknownType, st)
    | "array" => inferArrayType fuel e ctx uri st
    | "block" => inferBlockType fuel e ctx uri st
    | _ => (createUnknownType, st)

def inferBinaryExpressionType : Nat → Expr → TypeContext → String → TCState → Ty × TCState
  | 0, _, _, _, st => (createUnknownType, st)
  | fuel + 1, e, ctx, uri, st =>
    match e.left, e.right with
    | some l, some r =>
      let ls := inferExpressionType fuel l ctx uri st
      let rs := inferExpressionType fuel r ctx uri ls.2
      let leftType := ls.1
      let rightType := rs.1
      let st := rs.2
      match e.operator with
      | some op =>
        if op = "+" || op = "-" || op = "*" || op = "/" || op = "%" then
          inferArithmeticType st leftType rightType e.range e.line e.column
        else if op = "==" || op = "!=" || op = "<" || op = "<=" || op = ">" || op = ">=" then
          (createPrimitiveType "bool", st)
        else if op = "&&" || op = "||" then
          let st := checkBooleanType st leftType l.range l.line l.column
          let st := checkBooleanType st rightType r.range r.line r.column
          (createPrimitiveType "bool", st)
        else if op = "=" || op = "+=" || op = "-=" || op = "*=" || op = "/=" || op = "%=" then
          let st := checkTypeCompatibility st rightType leftType e.range e.line e.column
          (leftType, st)
        else (createUnknownType, st)
      | none => (createUnknownType, st)
    | _, _ => (createUnknownType, st)

def inferUnaryExpressionType : Nat → Expr → TypeContext → String → TCState → Ty × TCState
  | 0, _, _, _, st => (createUnknownType, st)
  | fuel + 1, e, ctx, uri, st =>
    match e.right with
    | some r =>
      let os := inferExpressionType fuel r ctx uri st
      let operandType := os.1
      let st := os.2
      match e.operator with
      | some "-" =>
        if operandType.name = "int" || operandType.name = "float" then (operandType, st)
        else
          (createErrorType,
           addTCError st ("Cannot apply unary \x27-\x27 to type \x27" ++
             operandType.name ++ "\x27") e.range e.line e.column)
      | some "!" =>
        let st := checkBooleanType st operandType r.range r.line r.column
        (createPrimitiveType "bool", st)
      | _ => (createUnknownType, st)
    | none => (createUnknownType, st)

/-- Source `inferCallExpressionType`: the callee is inferred as an ordinary
expression (an identifier callee goes through `lookupVariableType`, not
through `context.functions`).  No value the checker ever constructs has
kind `FUNCTION`; if one did, the `as any` cast would make
`checkFunctionCall` read `.length` of `undefined`, a thrown `TypeError`,
modelled by the `crashed` flag. -/
def inferCallExpressionType : Nat → Expr → TypeContext → String → TCState → Ty × TCState
  | 0, _, _, _, st => (createUnknownType, st)
  | fuel + 1, e, ctx, uri, st =>
    match e.left with
    | some callee =>
      let cs := inferExpressionType fuel callee ctx uri st
      let calleeType := cs.1
      let st := cs.2
      if calleeType.kind = .functionKind then
        (createUnknownType, { st with crashed := true })
      else
        (createErrorType,
         addTCError st ("Cannot call expression of type \x27" ++ calleeType.name ++
           "\x27") e.range e.line e.column)
    | none => (createUnknownType, st)

def inferMemberAccessType : Nat → Expr → TypeContext → String → TCState → Ty × TCState
  | 0, _, _, _, st => (createUnknownType, st)
  | fuel + 1, e, ctx, uri, st =>
    match e.left with
    | some obj =>
      let os := inferExpressionType fuel obj ctx uri st
      let objectType := os.1
      let st := os.2
      let memberName := e.value.asString
      if objectType.kind = .structKind then
        (lookupStructField objectType memberName, st)
      else if objectType.kind = .enumKind then
        (lookupEnumVariant objectType memberName, st)
      else
        (createErrorType,
         addTCError st ("Cannot access member \x27" ++ memberName ++
           "\x27 on type \x27" ++ objectType.name ++ "\x27") e.range e.line e.column)
    | none => (createUnknownType, st)

def inferIndexAccessType : Nat → Expr → TypeContext → String → TCState → Ty × TCState
  | 0, _, _, _, st => (createUnknownType, st)
  | fuel + 1, e, ctx, uri, st =>
    match e.left, e.right with
    | some l, some r =>
      let as1 := inferExpressionType fuel l ctx uri st
      let is1 := inferExpressionType fuel r ctx uri as1.2
      let arrayType := as1.1
      let indexType := is1.1
      let st := is1.2
      let st :=
        if indexType.name ≠ "int" then
          addTCError st ("Array index must be of type \x27int\x27, got \x27" ++
            indexType.name ++ "\x27") r.range r.line r.column
        else st
      if arrayType.name = "Vec" || arrayType.name = "string" then
        (getArrayElementType arrayType, st)
      else
        (createErrorType,
         addTCError st ("Cannot index type \x27" ++ arrayType.name ++ "\x27")
           l.range l.line l.column)
    | _, _ => (createUnknownType, st)

def inferArrayType : Nat → Expr → TypeContext → String → TCState → Ty × TCState
  | 0, _, _, _, st => (createUnknownType, st)
  | fuel + 1, e, ctx, uri, st =>
    match e.value.asExprList with
    | [] => (createGenericType "Vec" [createUnknownType], st)
    | first :: rest =>
      let fs := inferExpressionType fuel first ctx uri st
      let rs := inferExprListTypes fuel rest ctx uri fs.2
      let firstType := fs.1
      let st := (List.zip rest rs.1).foldl
        (fun st p =>
          if ¬ typesEqual p.2 firstType then
            addTCError st ("Array elements must have the same type, got \x27" ++
              firstType.name ++ "\x27 and \x27" ++ p.2.name ++ "\x27")
              p.1.range p.1.line p.1.column
          else st) rs.2
      (createGenericType "Vec" [firstType], st)

def inferExprListTypes : Nat → List Expr → TypeContext → String → TCState → List Ty × TCState
  | 0, _, _, _, st => ([], st)
  | _, [], _, _, st => ([], st)
  | fuel + 1, e :: es, ctx, uri, st =>
    let ts := inferExpressionType fuel e ctx uri st
    let rs := inferExprListTypes fuel es ctx uri ts.2
    (ts.1 :: rs.1, rs.2)

/-- Backwards scan of `inferBlockType`: the loop runs from the last
statement towards the first and returns the type of the first
expression-statement it finds. -/
def inferBlockScan : Nat → List Node → TypeContext → String → TCState → Option (Ty × TCState)
  | 0, _, _, _, _ => none
  | _, [], _, _, _ => none
  | fuel + 1, n :: ns, ctx, uri, st =>
    match inferBlockScan fuel ns ctx uri st with
    | some r => some r
    | none =>
      match n with
      | .stmt s =>
        if s.kind = "expression" then
          match s.expression with
          | some e => some (inferExpressionType fuel e ctx uri st)
          | none => none
        else none
      | _ => none

def inferBlockType : Nat → Expr → TypeContext → String → TCState → Ty × TCState
  | 0, _, _, _, st => (createUnknownType, st)
  | fuel + 1, e, ctx, uri, st =>
    match inferBlockScan fuel e.value.asNodeList ctx uri st with
    | some r => r
    | none => (createPrimitiveType "void", st)

/-- Source `checkStatement`: receives an arbitrary AST node (function bodies mix
statements with declaration nodes); a node without a `kind` string matches
no `case` and is ignored. -/
def checkStatement : Nat → Node → TypeContext → String → TCState → TCState
  | 0, _, _, _, st => st
  | fuel + 1, n, ctx, uri, st =>
    match n with
    | .stmt s =>
      match s.kind with
      | "expression" =>
        match s.expression with
        | some e => (inferExpressionType fuel e ctx uri st).2
        | none => st
      | "if" =>
        let st :=
          match s.condition with
          | some c =>
            let cs := inferExpressionType fuel c ctx uri st
            checkBooleanType cs.2 cs.1 c.range c.line c.column
          | none => st
        let st :=
          match s.thenBody with
          | some body => checkStatementList fuel body ctx uri st
          | none => st
        match s.elseBody with
        | some body => checkStatementList fuel body ctx uri st
        | none => st
      | "for" =>
        let st :=
          match s.collection with
          | some c =>
            let cs := inferExpressionType fuel c ctx uri st
            checkIterableType cs.2 cs.1 c.range c.line c.column
          | none => st
        match s.body with
        | some body => checkStatementList fuel body (loopContextOf ctx) uri st
        | none => st
      | "while" =>
        let st :=
          match s.condition with
          | some c =>
            let cs := inferExpressionType fuel c ctx uri st
            checkBooleanType cs.2 cs.1 c.range c.line c.column
          | none => st
        match s.body with
        | some body => checkStatementList fuel body (loopContextOf ctx) uri st
        | none => st
      | "match" =>
        match s.expression with
        | some scrut =>
          let ms := inferExpressionType fuel scrut ctx uri st
          match s.cases with
          | some cs => checkMatchCases fuel cs ms.1 ctx uri ms.2
          | none => ms.2
        | none => st
      | "return" =>
        match s.value with
        | some v =>
          let vs := inferExpressionType fuel v ctx uri st
          match ctx.returnType with
          | some rt => checkTypeCompatibility vs.2 vs.1 rt v.range v.line v.column
          | none => vs.2
        | none =>
          match ctx.returnType with
          | some rt =>
            if rt.name ≠ "void" then
              addTCError st "Missing return value" s.range s.line s.column
            else st
          | none => st
      | "break" =>
        if ¬ ctx.inLoop then
          addTCError st "break statement outside of loop" s.range s.line s.column
        else st
      | "continue" =>
        if ¬ ctx.inLoop then
          addTCError st "continue statement outside of loop" s.range s.line s.column
        else st
      | _ => st
    | _ => st

def checkStatementList : Nat → List Node → TypeContext → String → TCState → TCState
  | 0, _, _, _, st => st
  | _, [], _, _, st => st
  | fuel + 1, n :: ns, ctx, uri, st =>
    checkStatementList fuel ns ctx uri (checkStatement fuel n ctx uri st)

def checkMatchCases : Nat → List MatchCase → Ty → TypeContext → String → TCState → TCState
  | 0, _, _, _, _, st => st
  | _, [], _, _, _, st => st
  | fuel + 1, c :: cs, matchType, ctx, uri, st =>
    let ps := inferExpressionType fuel c.pattern ctx uri st
    let st := checkTypeCompatibility ps.2 ps.1 matchType
      c.pattern.range c.pattern.line c.pattern.column
    let st :=
      match c.guard with
      | some g =>
        let gs := inferExpressionType fuel g ctx uri st
        checkBooleanType gs.2 gs.1 g.range g.line g.column
      | none => st
    let st := checkStatementList fuel c.body ctx uri st
    checkMatchCases fuel cs matchType ctx uri st

end

/-- Source `checkVariable`: when there is no declared type the initializer is
inferred twice, once for the expected type and once for the actual type;
the final `context.vars.set` mutates the caller’s map in place (same
`id`). -/
def checkVariable (fuel : Nat) (vdecl : VariableDecl) (ctx : TypeContext)
    (uri : String) (st : TCState) : TypeContext × TCState :=
  let es : Ty × TCState :=
    match vdecl.varType with
    | some te => (parseTypeExpression st te, st)
    | none =>
      match vdecl.value with
      | some v => inferExpressionType fuel v ctx uri st
      | none => (createUnknownType, st)
  let expectedType := es.1
  let st := es.2
  let st :=
    match vdecl.value with
    | some v =>
      let asx := inferExpressionType fuel v ctx uri st
      checkTypeCompatibility asx.2 asx.1 expectedType v.range v.line v.column
    | none => st
  ({ ctx with vars := mapSet ctx.vars vdecl.name expectedType }, st)

def checkStruct (structDecl : StructDecl) (_ctx : TypeContext) (_uri : String)
    (st : TCState) : TCState :=
  structDecl.fields.foldl
    (fun st field =>
      let fieldType := parseTypeExpression st field.type
      if fieldType.kind = .error then
        addTCError st ("Invalid field type: " ++ field.type.baseType)
          field.type.range field.type.line field.type.column
      else st) st

def checkEnum (enumDecl : EnumDecl) (_ctx : TypeContext) (_uri : String)
    (st : TCState) : TCState :=
  enumDecl.variants.foldl
    (fun st variant =>
      match variant.fields with
      | some fs =>
        fs.foldl
          (fun st field =>
            let fieldType := parseTypeExpression st field.type
            if fieldType.kind = .error then
              addTCError st ("Invalid variant field type: " ++ field.type.baseType)
                field.type.range field.type.line field.type.column
            else st) st
      | none => st) st

/-- Source `checkFunction`: builds a child context whose three maps are fresh
copies (`new Map(...)` — new identities, copied entries), adds the
parameters, and checks the body. -/
def checkFunction (fuel : Nat) (func : FunctionDecl) (ctx : TypeContext)
    (uri : String) (st : TCState) : TCState :=
  let functionContext : TypeContext :=
    { vars := ⟨st.nextId, ctx.vars.entries⟩
      functions := ⟨st.nextId + 1, ctx.functions.entries⟩
      types := ⟨st.nextId + 2, ctx.types.entries⟩
      returnType := some (match func.returnType with
        | some te => parseTypeExpression st te
        | none => createPrimitiveType "void")
      inLoop := false
      inFunction := true }
  let st := { st with nextId := st.nextId + 3 }
  let functionContext := func.parameters.foldl
    (fun fc param =>
      { fc with vars := mapSet fc.vars param.name (parseTypeExpression st param.type) })
    functionContext
  checkStatementList fuel func.body functionContext uri st

def checkNode (fuel : Nat) (n : Node) (ctx : TypeContext) (uri : String)
    (st : TCState) : TypeContext × TCState :=
  match n with
  | .funcDecl f => (ctx, checkFunction fuel f ctx uri st)
  | .structDecl s => (ctx, checkStruct s ctx uri st)
  | .enumDecl e => (ctx, checkEnum e ctx uri st)
  | .varDecl v => checkVariable fuel v ctx uri st
  | .stmt _ => (ctx, checkStatement fuel n ctx uri st)

def collectFunctionType (func : FunctionDecl) (_uri : String) (st : TCState) : TCState :=
  let paramTypes := func.parameters.map (fun p => parseTypeExpression st p.type)
  let returnType :=
    match func.returnType with
    | some te => parseTypeExpression st te
    | none => createPrimitiveType "void"
  { st with globalContext :=
      { st.globalContext with functions :=
          (mapSet st.globalContext.functions func.name
            ⟨paramTypes, returnType, func.isAsync⟩) } }

def collectStructType (structDecl : StructDecl) (_uri : String) (st : TCState) : TCState :=
  let structType : Ty := .mk .structKind structDecl.name
    (structDecl.generics.map (fun gs => gs.map (fun g => createGenericType g.name [])))
    none none
  { st with globalContext :=
      { st.globalContext with types :=
          (mapSet st.globalContext.types structDecl.name structType) } }

def collectEnumType (enumDecl : EnumDecl) (_uri : String) (st : TCState) : TCState :=
  let enumType : Ty := .mk .enumKind enumDecl.name
    (enumDecl.generics.map (fun gs => gs.map (fun g => createGenericType g.name [])))
    none none
  { st with globalContext :=
      { st.globalContext with types :=
          (mapSet st.globalContext.types enumDecl.name enumType) } }

/-- Source `collectStatementTypes`: statement-shaped declarations; JavaScript
truthiness makes an empty `name` string skip the registration. -/
def collectStatementTypes (s : Stmt) (_uri : String) (st : TCState) : TCState :=
  match s.kind with
  | "function" =>
    match s.parameters, s.name with
    | some ps, some n =>
      if n ≠ "" then
        let paramTypes := ps.map (fun p => parseTypeExpression st p.type)
        let returnType :=
          match s.returnType with
          | some te => parseTypeExpression st te
          | none => createPrimitiveType "void"
        { st with globalContext :=
            { st.globalContext with functions :=
                (mapSet st.globalContext.functions n ⟨paramTypes, returnType, false⟩) } }
      else st
    | _, _ => st
  | "struct" =>
    match s.name with
    | some n =>
      if n ≠ "" then
        { st with globalContext :=
            { st.globalContext with types :=
                (mapSet st.globalContext.types n (.mk .structKind n none none none)) } }
      else st
    | none => st
  | "enum" =>
    match s.name with
    | some n =>
      if n ≠ "" then
        { st with globalContext :=
            { st.globalContext with types :=
                (mapSet st.globalContext.types n (.mk .enumKind n none none none)) } }
      else st
    | none => st
  | _ => st

def collectTypes (n : Node) (uri : String) (st : TCState) : TCState :=
  match n with
  | .funcDecl f => collectFunctionType f uri st
  | .structDecl s => collectStructType s uri st
  | .enumDecl e => collectEnumType e uri st
  | .stmt s => collectStatementTypes s uri st
  | .varDecl _ => st

/-- Source `createGlobalContext()`, invoked once from the constructor; map
identities 0, 1, 2 belong to the three global maps. -/
def createGlobalContext : TypeContext :=
  { vars := ⟨0, []⟩, functions := ⟨1, []⟩, types := ⟨2, []⟩,
    returnType := none, inLoop := false, inFunction := false }

/-- Source `new TypeChecker()`. -/
def newChecker : TCState :=
  { errors := [], globalContext := createGlobalContext, nextId := 3, crashed := false }

/-- Source `checkTypes(ast, uri)`: resets only `this.errors`; `this.globalContext`
persists from earlier invocations.  Pass two threads the `globalContext`
object through every top-level node (the same object is passed each time,
so a `context.vars.set` from a top-level variable declaration is seen
by later nodes and survives the call). -/
def checkTypes (st0 : TCState) (ast : List Node) (uri : String) :
    List TypeErrorRec × TCState :=
  let st := { st0 with errors := [] }
  let st := ast.foldl (fun st n => collectTypes n uri st) st
  let fuel := nodeListSize ast + 1
  let p := ast.foldl (fun (p : TypeContext × TCState) n => checkNode fuel n p.1 uri p.2)
    (st.globalContext, st)
  let st := { p.2 with globalContext := p.1 }
  (st.errors, st)

end TypeChecker

/-! ## Semantic analyzer (server/src/semantic/analyzer.ts) -/

/-- LSP position / range / diagnostic shapes (`end` is spelled `stop`). -/
structure Pos where
  line : Int
  character : Int
deriving DecidableEq, Repr

structure DiagRange where
  start : Pos
  stop : Pos
deriving DecidableEq, Repr

structure SemanticError where
  message : String
  range : DiagRange
  severity : Nat
  code : Option String
deriving DecidableEq, Repr

structure Diagnostic where
  severity : Nat
  range : DiagRange
  message : String
  source : String
  code : Option String
deriving DecidableEq, Repr

/-- The `SymbolInfo` interface (optional fields model absent properties). -/
structure SymbolInfo where
  type : String
  name : String
  uri : String
  range : Range0
  parameters : Option (List Param) := none
  returnType : Option TypeExpr := none
  isAsync : Option Bool := none
  fields : Option (List Field) := none
  generics : Option (List TypeParameter) := none
  variants : Option (List EnumVariant) := none
  varType : Option TypeExpr := none
  isConst : Option Bool := none

/-- Instance state of the `SemanticAnalyzer` class (the unused
`currentScope` array is omitted); the `typeChecker` field is the
`TypeChecker` instance created once in the constructor. -/
structure AnalyzerState where
  errors : List SemanticError
  symbolTable : List (String × SymbolInfo)
  functionScopes : List (String × List String)
  tc : TCState

namespace SemanticAnalyzer

def severityError : Nat := 1

def severityWarning : Nat := 2

def assocHas {α : Type} (k : String) (t : List (String × α)) : Bool :=
  (t.find? (fun p => p.1 = k)).isSome

def assocSet {α : Type} (k : String) (v : α) (t : List (String × α)) :
    List (String × α) :=
  if (t.find? (fun p => p.1 = k)).isSome then
    t.map (fun p => if p.1 = k then (k, v) else p)
  else t ++ [(k, v)]

/-- Source `this.addError(message, range, severity, code)`: the diagnostic range is
built with line `0` and the node byte offsets as the character fields. -/
def addError (st : AnalyzerState) (message : String) (range : Range0)
    (severity : Nat) (code : Option String) : AnalyzerState :=
  { st with errors := st.errors ++
      [⟨message, ⟨⟨0, range.start⟩, ⟨0, range.stop⟩⟩, severity, code⟩] }

def isAsciiLower (c : Char) : Bool := 'a' ≤ c && c ≤ 'z'

def isAsciiUpper (c : Char) : Bool := 'A' ≤ c && c ≤ 'Z'

def isAsciiDigit (c : Char) : Bool := '0' ≤ c && c ≤ '9'

/-- Source `/^[a-zA-Z_][a-zA-Z0-9_]*$/`. -/
def isValidIdentifier (s : String) : Bool :=
  match s.data with
  | [] => false
  | c :: rest =>
    (isAsciiLower c || isAsciiUpper c || c = '_') &&
    rest.all (fun c => isAsciiLower c || isAsciiUpper c || isAsciiDigit c || c = '_')

/-- Source `/^[A-Z][a-zA-Z0-9_]*$/`. -/
def isValidTypeName (s : String) : Bool :=
  match s.data with
  | [] => false
  | c :: rest =>
    isAsciiUpper c &&
    rest.all (fun c => isAsciiLower c || isAsciiUpper c || isAsciiDigit c || c = '_')

/-- Source `/^[A-Z][A-Z0-9_]*$/`. -/
def isValidConstName (s : String) : Bool :=
  match s.data with
  | [] => false
  | c :: rest =>
    isAsciiUpper c && rest.all (fun c => isAsciiUpper c || isAsciiDigit c || c = '_')

def isPrimitiveType (s : String) : Bool :=
  ["int", "float", "bool", "string", "char", "void"].contains s

def symKey (uri name : String) : String := uri ++ ":" ++ name

def collectFunctionDeclaration (func : FunctionDecl) (uri : String)
    (st : AnalyzerState) : AnalyzerState :=
  let key := symKey uri func.name
  if assocHas key st.symbolTable then
    addError st ("Function \x27" ++ func.name ++ "\x27 is already declared")
      func.range severityError (some "duplicate_function")
  else
    let st :=
      if ¬ isValidIdentifier func.name then
        addError st ("Invalid function name: \x27" ++ func.name ++ "\x27")
          func.range severityError (some "invalid_function_name")
      else st
    let acc := func.parameters.foldl
      (fun (acc : List String × AnalyzerState) param =>
        let acc :=
          if acc.1.contains param.name then
            (acc.1, addError acc.2 ("Duplicate parameter name: \x27" ++ param.name ++ "\x27")
              param.type.range severityError (some "duplicate_parameter"))
          else (acc.1 ++ [param.name], acc.2)
        if ¬ isValidIdentifier param.name then
          (acc.1, addError acc.2 ("Invalid parameter name: \x27" ++ param.name ++ "\x27")
            param.type.range severityError (some "invalid_parameter_name"))
        else acc)
      ([], st)
    let st := acc.2
    let info : SymbolInfo :=
      { type := "function", name := func.name, uri := uri, range := func.range,
        parameters := some func.parameters, returnType := func.returnType,
        isAsync := some func.isAsync }
    let st := { st with symbolTable := assocSet key info st.symbolTable }
    { st with functionScopes := assocSet key acc.1 st.functionScopes }

def collectStructDeclaration (structDecl : StructDecl) (uri : String)
    (st : AnalyzerState) : AnalyzerState :=
  let key := symKey uri structDecl.name
  if assocHas key st.symbolTable then
    addError st ("Struct \x27" ++ structDecl.name ++ "\x27 is already declared")
      structDecl.range severityError (some "duplicate_struct")
  else
    let st :=
      if ¬ isValidTypeName structDecl.name then
        addError st ("Invalid struct name: \x27" ++ structDecl.name ++
          "\x27 (should be PascalCase)") structDecl.range severityError
          (some "invalid_struct_name")
      else st
    let acc := structDecl.fields.foldl
      (fun (acc : List String × AnalyzerState) field =>
        let acc :=
          if acc.1.contains field.name then
            (acc.1, addError acc.2 ("Duplicate field name: \x27" ++ field.name ++ "\x27")
              field.type.range severityError (some "duplicate_field"))
          else (acc.1 ++ [field.name], acc.2)
        if ¬ isValidIdentifier field.name then
          (acc.1, addError acc.2 ("Invalid field name: \x27" ++ field.name ++ "\x27")
            field.type.range severityError (some "invalid_field_name"))
        else acc)
      ([], st)
    let st := acc.2
    let info : SymbolInfo :=
      { type := "struct", name := structDecl.name, uri := uri, range := structDecl.range,
        fields := some structDecl.fields, generics := structDecl.generics }
    { st with symbolTable := assocSet key info st.symbolTable }

def collectEnumDeclaration (enumDecl : EnumDecl) (uri : String)
    (st : AnalyzerState) : AnalyzerState :=
  let key := symKey uri enumDecl.name
  if assocHas key st.symbolTable then
    addError st ("Enum \x27" ++ enumDecl.name ++ "\x27 is already declared")
      enumDecl.range severityError (some "duplicate_enum")
  else
    let st :=
      if ¬ isValidTypeName enumDecl.name then
        addError st ("Invalid enum name: \x27" ++ enumDecl.name ++
          "\x27 (should be PascalCase)") enumDecl.range severityError
          (some "invalid_enum_name")
      else st
    let acc := enumDecl.variants.foldl
      (fun (acc : List String × AnalyzerState) variant =>
        let acc :=
          if acc.1.contains variant.name then
            (acc.1, addError acc.2 ("Duplicate variant name: \x27" ++ variant.name ++ "\x27")
              enumDecl.range severityError (some "duplicate_variant"))
          else (acc.1 ++ [variant.name], acc.2)
        if ¬ isValidTypeName variant.name then
          (acc.1, addError acc.2 ("Invalid variant name: \x27" ++ variant.name ++
            "\x27 (should be PascalCase)") enumDecl.range severityError
            (some "invalid_variant_name"))
        else acc)
      ([], st)
    let st := acc.2
    let info : SymbolInfo :=
      { type := "enum", name := enumDecl.name, uri := uri, range := enumDecl.range,
        variants := some enumDecl.variants, generics := enumDecl.generics }
    { st with symbolTable := assocSet key info st.symbolTable }

def collectVariableDeclaration (vdecl : VariableDecl) (uri : String)
    (st : AnalyzerState) : AnalyzerState :=
  let key := symKey uri vdecl.name
  if assocHas key st.symbolTable then
    addError st ("Variable \x27" ++ vdecl.name ++ "\x27 is already declared")
      vdecl.range severityError (some "duplicate_variable")
  else
    let st :=
      if ¬ isValidIdentifier vdecl.name then
        addError st ("Invalid variable name: \x27" ++ vdecl.name ++ "\x27")
          vdecl.range severityError (some "invalid_variable_name")
      else st
    let st :=
      if vdecl.isConst && ¬ isValidConstName vdecl.name then
        addError st ("Constant \x27" ++ vdecl.name ++
          "\x27 should be in UPPER_SNAKE_CASE") vdecl.range severityWarning
          (some "const_naming_convention")
      else st
    let info : SymbolInfo :=
      { type := "variable", name := vdecl.name, uri := uri, range := vdecl.range,
        varType := vdecl.varType, isConst := some vdecl.isConst }
    { st with symbolTable := assocSet key info st.symbolTable }

/-- Source `collectStatementDeclarations`: statement-shaped declarations are
re-packaged (`stmt.name || ’’`) and fed to the same collectors. -/
def collectStatementDeclarations (s : Stmt) (uri : String)
    (st : AnalyzerState) : AnalyzerState :=
  match s.kind with
  | "function" =>
    match s.parameters with
    | some ps =>
      collectFunctionDeclaration
        (.mk (s.name.getD "") ps s.returnType [] false s.range s.line s.column) uri st
    | none => st
  | "struct" =>
    match s.fields with
    | some fs =>
      collectStructDeclaration (.mk (s.name.getD "") fs none s.range s.line s.column) uri st
    | none => st
  | "enum" =>
    match s.variants with
    | some vs =>
      collectEnumDeclaration (.mk (s.name.getD "") vs none s.range s.line s.column) uri st
    | none => st
  | _ => st

def collectDeclarations (n : Node) (uri : String) (st : AnalyzerState) : AnalyzerState :=
  match n with
  | .funcDecl f => collectFunctionDeclaration f uri st
  | .structDecl s => collectStructDeclaration s uri st
  | .enumDecl e => collectEnumDeclaration e uri st
  | .varDecl v => collectVariableDeclaration v uri st
  | .stmt s => collectStatementDeclarations s uri st

mutual

/-- Source `validateTypeExpression`: a type annotation is accepted when its base
name matches the PascalCase regex or is a primitive; the symbol table is
not consulted.  Recurses into generic arguments. -/
def validateTypeExpression (typeExpr : TypeExpr) (uri : String)
    (st : AnalyzerState) : AnalyzerState :=
  match typeExpr with
  | .mk baseName gargs _ _ r _ _ =>
    let st :=
      if ¬ isValidTypeName baseName && ¬ isPrimitiveType baseName then
        addError st ("Unknown type: \x27" ++ baseName ++ "\x27") r severityError
          (some "unknown_type")
      else st
    match gargs with
    | some l => validateTypeExprList l uri st
    | none => st

def validateTypeExprList : List TypeExpr → String → AnalyzerState → AnalyzerState
  | [], _, st => st
  | t :: ts, uri, st => validateTypeExprList ts uri (validateTypeExpression t uri st)

end

def validateIdentifier (name : String) (range : Range0) (uri : String)
    (st : AnalyzerState) : AnalyzerState :=
  if ¬ assocHas (symKey uri name) st.symbolTable then
    addError st ("Undefined identifier: \x27" ++ name ++ "\x27") range severityError
      (some "undefined_identifier")
  else st

mutual

/-- Source `analyzeStatement` (pass 2): like the type checker, it receives raw AST
nodes; a declaration node without a `kind` matches no case. -/
def analyzeStatement : Nat → Node → String → AnalyzerState → AnalyzerState
  | 0, _, _, st => st
  | fuel + 1, n, uri, st =>
    match n with
    | .stmt s =>
      match s.kind with
      | "expression" =>
        match s.expression with
        | some e => analyzeExpression fuel e uri st
        | none => st
      | "if" =>
        let st :=
          match s.condition with
          | some c => analyzeExpression fuel c uri st
          | none => st
        let st :=
          match s.thenBody with
          | some body => analyzeStatementList fuel body uri st
          | none => st
        match s.elseBody with
        | some body => analyzeStatementList fuel body uri st
        | none => st
      | "for" =>
        let st :=
          match s.collection with
          | some c => analyzeExpression fuel c uri st
          | none => st
        match s.body with
        | some body => analyzeStatementList fuel body uri st
        | none => st
      | "while" =>
        let st :=
          match s.condition with
          | some c => analyzeExpression fuel c uri st
          | none => st
        match s.body with
        | some body => analyzeStatementList fuel body uri st
        | none => st
      | "match" =>
        let st :=
          match s.expression with
          | some e => analyzeExpression fuel e uri st
          | none => st
        match s.cases with
        | some cs => analyzeMatchCases fuel cs uri st
        | none => st
      | "return" =>
        match s.value with
        | some v => analyzeExpression fuel v uri st
        | none => st
      | _ => st
    | _ => st

def analyzeStatementList : Nat → List Node → String → AnalyzerState → AnalyzerState
  | 0, _, _, st => st
  | _, [], _, st => st
  | fuel + 1, n :: ns, uri, st =>
    analyzeStatementList fuel ns uri (analyzeStatement fuel n uri st)

def analyzeMatchCases : Nat → List MatchCase → String → AnalyzerState → AnalyzerState
  | 0, _, _, st => st
  | _, [], _, st => st
  | fuel + 1, c :: cs, uri, st =>
    let st := analyzeExpression fuel c.pattern uri st
    let st :=
      match c.guard with
      | some g => analyzeExpression fuel g uri st
      | none => st
    let st := analyzeStatementList fuel c.body uri st
    analyzeMatchCases fuel cs uri st

def analyzeExpression : Nat → Expr → String → AnalyzerState → AnalyzerState
  | 0, _, _, st => st
  | fuel + 1, e, uri, st =>
    match e.kind with
    | "literal" => st
    | "identifier" => validateIdentifier e.value.asString e.range uri st
    | "binary" =>
      let st :=
        match e.left with
        | some l => analyzeExpression fuel l uri st
        | none => st
      match e.right with
      | some r => analyzeExpression fuel r uri st
      | none => st
    | "unary" =>
      match e.right with
      | some r => analyzeExpression fuel r uri st
      | none => st
    | "call" =>
      let st :=
        match e.left with
        | some l => analyzeExpression fuel l uri st
        | none => st
      match e.value with
      | .exprList args => analyzeExprList fuel args uri st
      | _ => st
    | "member_access" =>
      match e.left with
      | some l => analyzeExpression fuel l uri st
      | none => st
    | "index_access" =>
      let st :=
        match e.left with
        | some l => analyzeExpression fuel l uri st
        | none => st
      match e.right with
      | some r => analyzeExpression fuel r uri st
      | none => st
    | "parenthesized" =>
      match e.value with
      | .onePar inner => analyzeExpression fuel inner uri st
      | _ => st
    | "array" =>
      match e.value with
      | .exprList es => analyzeExprList fuel es uri st
      | _ => st
    | "block" =>
      match e.value with
      | .nodeList ns => analyzeStatementList fuel ns uri st
      | _ => st
    | _ => st

def analyzeExprList : Nat → List Expr → String → AnalyzerState → AnalyzerState
  | 0, _, _, st => st
  | _, [], _, st => st
  | fuel + 1, e :: es, uri, st =>
    analyzeExprList fuel es uri (analyzeExpression fuel e uri st)

end

def analyzeFunction (fuel : Nat) (func : FunctionDecl) (uri : String)
    (st : AnalyzerState) : AnalyzerState :=
  let st := analyzeStatementList fuel func.body uri st
  let st :=
    match func.returnType with
    | some rt => validateTypeExpression rt uri st
    | none => st
  func.parameters.foldl (fun st param => validateTypeExpression param.type uri st) st

def analyzeStruct (structDecl : StructDecl) (uri : String)
    (st : AnalyzerState) : AnalyzerState :=
  let st := structDecl.fields.foldl
    (fun st field => validateTypeExpression field.type uri st) st
  match structDecl.generics with
  | some gs =>
    gs.foldl
      (fun st g =>
        match g.constraint with
        | some c => validateTypeExpression c uri st
        | none => st) st
  | none => st

def analyzeEnum (enumDecl : EnumDecl) (uri : String)
    (st : AnalyzerState) : AnalyzerState :=
  let st := enumDecl.variants.foldl
    (fun st variant =>
      match variant.fields with
      | some fs => fs.foldl (fun st field => validateTypeExpression field.type uri st) st
      | none => st) st
  match enumDecl.generics with
  | some gs =>
    gs.foldl
      (fun st g =>
        match g.constraint with
        | some c => validateTypeExpression c uri st
        | none => st) st
  | none => st

def analyzeVariable (fuel : Nat) (vdecl : VariableDecl) (uri : String)
    (st : AnalyzerState) : AnalyzerState :=
  let st :=
    match vdecl.varType with
    | some t => validateTypeExpression t uri st
    | none => st
  match vdecl.value with
  | some v => analyzeExpression fuel v uri st
  | none => st

def analyzeNode (fuel : Nat) (n : Node) (uri : String)
    (st : AnalyzerState) : AnalyzerState :=
  match n with
  | .funcDecl f => analyzeFunction fuel f uri st
  | .structDecl s => analyzeStruct s uri st
  | .enumDecl e => analyzeEnum e uri st
  | .varDecl v => analyzeVariable fuel v uri st
  | .stmt _ => analyzeStatement fuel n uri st

/-- Source `new SemanticAnalyzer()`. -/
def newAnalyzer : AnalyzerState :=
  { errors := [], symbolTable := [], functionScopes := [], tc := TypeChecker.newChecker }

/-- Source `analyze(ast, uri)`: reset, pass 1 (collection), pass 2 (validation),
then run the type checker on the instance `typeChecker` and merge its
errors with code `type_error` and line `typeError.line - 1`. -/
def analyze (st0 : AnalyzerState) (ast : List Node) (uri : String) :
    List Diagnostic × AnalyzerState :=
  let st := { st0 with errors := [], symbolTable := [], functionScopes := [] }
  let st := ast.foldl (fun st n => collectDeclarations n uri st) st
  let fuel := nodeListSize ast + 1
  let st := ast.foldl (fun st n => analyzeNode fuel n uri st) st
  let tr := TypeChecker.checkTypes st.tc ast uri
  let st := { st with tc := tr.2 }
  let st := tr.1.foldl
    (fun st te =>
      { st with errors := st.errors ++
          [⟨te.message, ⟨⟨te.line - 1, te.column - 1⟩, ⟨te.line - 1, te.column⟩⟩,
            severityError, some "type_error"⟩] }) st
  (st.errors.map (fun e => ⟨e.severity, e.range, e.message, "vextlang", e.code⟩), st)

end SemanticAnalyzer

/-! ## C8 helpers: the duplicate-declaration diagnostic of pass 1 -/

namespace SemanticAnalyzer

/-- The declared name a pass-1 collector keys on (`none` for statement
nodes, which are re-packaged before reaching the collectors). -/
def declName : Node → Option String
  | .funcDecl f => some f.name
  | .structDecl s => some s.name
  | .enumDecl e => some e.name
  | .varDecl v => some v.name
  | .stmt _ => none

/-- The single diagnostic a collector appends when the symbol key is
already present. -/
def duplicateDiagnostic : Node → List SemanticError
  | .funcDecl f =>
    [⟨"Function \x27" ++ f.name ++ "\x27 is already declared",
      ⟨⟨0, f.range.start⟩, ⟨0, f.range.stop⟩⟩, severityError, some "duplicate_function"⟩]
  | .structDecl s =>
    [⟨"Struct \x27" ++ s.name ++ "\x27 is already declared",
      ⟨⟨0, s.range.start⟩, ⟨0, s.range.stop⟩⟩, severityError, some "duplicate_struct"⟩]
  | .enumDecl e =>
    [⟨"Enum \x27" ++ e.name ++ "\x27 is already declared",
      ⟨⟨0, e.range.start⟩, ⟨0, e.range.stop⟩⟩, severityError, some "duplicate_enum"⟩]
  | .varDecl v =>
    [⟨"Variable \x27" ++ v.name ++ "\x27 is already declared",
      ⟨⟨0, v.range.start⟩, ⟨0, v.range.stop⟩⟩, severityError, some "duplicate_variable"⟩]
  | .stmt _ => []

end SemanticAnalyzer

/-! ## Concrete program fixtures used by the claim theorems -/

def fxR : Range0 := ⟨0, 1⟩

def fxIdentE (n : String) : Expr := .mk "identifier" none none none (.str n) fxR 1 1

def fxLitE (v : String) : Expr := .mk "literal" none none none (.str v) fxR 1 1

def fxBinE (op : String) (l r : Expr) : Expr :=
  .mk "binary" (some op) (some l) (some r) .undef fxR 1 1

def fxCallE (f : Expr) (args : List Expr) : Expr :=
  .mk "call" none (some f) none (.exprList args) fxR 1 1

def fxExprStmt (e : Expr) : Node :=
  .stmt (.mk "expression" (some e) none none none none none none none none none none
    none none fxR 1 1)

def fxRetStmt (e : Expr) : Node :=
  .stmt (.mk "return" none none none none none none none (some e) none none none
    none none fxR 1 1)

def fxIntTE : TypeExpr := .mk "int" none none none fxR 1 1

/-- Source `fn add(a: int, b: int) -> int { return a + b; }` as the parser builds it. -/
def fxFnAdd : Node :=
  .funcDecl (.mk "add" [⟨"a", fxIntTE⟩, ⟨"b", fxIntTE⟩] (some fxIntTE)
    [fxRetStmt (fxBinE "+" (fxIdentE "a") (fxIdentE "b"))] false fxR 1 1)

/-- Source `add(1, 2)` (the parser stores literal token texts as strings). -/
def fxCallAdd : Expr := fxCallE (fxIdentE "add") [fxLitE "1", fxLitE "2"]

def c1Ast : List Node := [fxFnAdd, fxExprStmt fxCallAdd]

/-- Source `if (x) {}` with `x` undefined: the condition gets the error type. -/
def c4IfX : Node :=
  .stmt (.mk "if" none (some (fxIdentE "x")) (some []) none none none none none
    none none none none none fxR 1 1)

def fxFooTE : TypeExpr := .mk "Foo" none none none fxR 1 1

def c5AstFoo : List Node := [.structDecl (.mk "Foo" [] none fxR 1 1)]

def c5AstBar : List Node := [.structDecl (.mk "Bar" [⟨"f", fxFooTE⟩] none fxR 1 1)]

/-- The checker state after running `checkTypes` on `struct Foo {}`. -/
def c5s1 : TCState := (TypeChecker.checkTypes TypeChecker.newChecker c5AstFoo "file.vex").2

def c6LetX : Node := .varDecl (.mk "x" none (some (fxLitE "1")) false fxR 1 1)

/-- Source `if (true) { let x = 1; } else { x; }` inside `fn f() { ... }`. -/
def c6IfLet : Node :=
  .stmt (.mk "if" none (some (fxLitE "true")) (some [c6LetX])
    (some [fxExprStmt (fxIdentE "x")]) none none none none none none none none none
    fxR 1 1)

def c6FnF : Node := .funcDecl (.mk "f" [] none [c6IfLet] false fxR 1 1)

/-- Source `let x: Foo;` with no declaration of `Foo` anywhere. -/
def c7VarXFoo : Node :=
  .varDecl (.mk "x" (some (.mk "Foo" none none none ⟨7, 10⟩ 1 8)) none false ⟨0, 11⟩ 1 1)

def c8Info : SymbolInfo :=
  { type := "variable", name := "a", uri := "u", range := ⟨0, 6⟩, isConst := some false }

def c8St : AnalyzerState :=
  { errors := [], symbolTable := [(SemanticAnalyzer.symKey "u" "a", c8Info)],
    functionScopes := [], tc := TypeChecker.newChecker }

def c8Node : Node := .varDecl (.mk "a" none none false ⟨7, 13⟩ 2 1)

def c9FnTok : Token := ⟨.kwFn, "fn", 1, 1, 0⟩

def c9EofTok : Token := ⟨.eofTok, "", 1, 3, 2⟩

def c9Toks : List Token :=
  [⟨.identifier, "x", 1, 1, 0⟩, ⟨.semicolon, ";", 1, 2, 1⟩, ⟨.eofTok, "", 1, 3, 2⟩]

def c10BadVar : Node := .varDecl (.mk "1bad" none none false ⟨5, 9⟩ 3 2)

def c10Brk : Node :=
  .stmt (.mk "break" none none none none none none none none none none none none none
    ⟨10, 16⟩ 3 1)

/-! ## Claim theorems -/

/-- C1 (code bug): for `fn add(a: int, b: int) -> int { return a + b; }`
followed by `add(1, 2);`, the claim says `checkTypes` returns no errors and
infers type `int` for the call.  In the code, `inferCallExpressionType`
resolves the callee through `lookupVariableType` (the `variables` map) and
never consults `context.functions`, so the run reports
"Undefined variable: ’add’" and "Cannot call expression of type ’error’",
and the call is inferred to have the error type, not `int`. -/
theorem c1_code_bug_eval :
    ((TypeChecker.checkTypes TypeChecker.newChecker c1Ast "file.vex").1.map
        TypeErrorRec.message =
      ["Undefined variable: \x27add\x27", "Cannot call expression of type \x27error\x27"]) ∧
    (TypeChecker.inferExpressionType 10 fxCallAdd
        (TypeChecker.checkTypes TypeChecker.newChecker c1Ast "file.vex").2.globalContext
        "file.vex"
        (TypeChecker.checkTypes TypeChecker.newChecker c1Ast "file.vex").2).1.kind =
      TypeKind.error := by
  exact ⟨by decide, by decide⟩

/-- C2 (code bug): the claim says `tokenize` yields exactly one EOF token on
the empty source and an EOF-terminated stream for every input.  The
`while (this.current < this.source.length)` guard runs before the first
`nextToken` call, so the empty source yields zero tokens, and an input not
ending in whitespace (here `"x"`) yields a stream with no EOF sentinel.
(The error list is empty, and ERROR-kind tokens are indeed dropped.) -/
theorem c2_code_bug_eval :
    Lexer.tokenize "" = ⟨[], []⟩ ∧
    (Lexer.tokenize "x").tokens.map Token.type = [TokenType.identifier] := by
  exact ⟨by decide, by decide⟩

/-- C3 (code bug): on the source `"abc` the lexer does report exactly one
"Unterminated string literal" error and drops the ERROR token, but the
resulting token list is empty (no EOF sentinel), so the parser driver loop
condition `!this.isAtEnd()` evaluates `this.tokens[0].type` with
`this.tokens[0] === undefined` and `parse` throws a `TypeError` instead of
terminating normally with a syntax error at end of input. -/
theorem c3_code_bug_eval :
    (Lexer.tokenize "\"abc").tokens = [] ∧
    (Lexer.tokenize "\"abc").errors.map LexerError.message =
      ["Unterminated string literal"] ∧
    Parser.isAtEnd (Lexer.tokenize "\"abc").tokens 0 =
      Except.error JsCrash.typeErrorUndefined := by
  refine ⟨by decide, by decide, ?_⟩
  rfl

/-- C4 (counterexample): an error-typed expression used as an `if`
condition triggers a second diagnostic: checking `if (x) {}` with `x`
undefined yields both "Undefined variable: ’x’" and
"Expected boolean type, got ’error’", contradicting the claim that
error-typed operands never trigger further diagnostics. -/
theorem c4_counterexample :
    (TypeChecker.checkTypes TypeChecker.newChecker [c4IfX] "file.vex").1.map
        TypeErrorRec.message =
      ["Undefined variable: \x27x\x27", "Expected boolean type, got \x27error\x27"] := by
  decide

/-- C4 (amended): the checks consuming an expression compare only the type
name (or structural equality), and `error` never passes, so an error-typed
operand used as a condition/logical operand, compatibility-checked side, or
`for` collection triggers exactly one further diagnostic at the consuming
construct. -/
theorem c4_amended :
    (∀ (st : TCState) (r : Range0) (l c : Int),
      TypeChecker.checkBooleanType st TypeChecker.createErrorType r l c =
        TypeChecker.addTCError st "Expected boolean type, got \x27error\x27" r l c) ∧
    (∀ (st : TCState) (r : Range0) (l c : Int),
      TypeChecker.checkTypeCompatibility st TypeChecker.createErrorType
          (TypeChecker.createPrimitiveType "int") r l c =
        TypeChecker.addTCError st "Type mismatch: expected \x27int\x27, got \x27error\x27"
          r l c) ∧
    (∀ (st : TCState) (r : Range0) (l c : Int),
      TypeChecker.checkIterableType st TypeChecker.createErrorType r l c =
        TypeChecker.addTCError st
          "Expected iterable type (Vec or string), got \x27error\x27" r l c) := by
  refine ⟨fun st r l c => rfl, fun st r l c => rfl, fun st r l c => rfl⟩

/-- C5 (counterexample): two `checkTypes` invocations with identical
arguments (`struct Bar { f: Foo }`, same uri) return different error lists
depending on an earlier invocation: on a fresh checker the field type `Foo`
is unknown ("Invalid field type: Foo"), but after an earlier run that
collected `struct Foo {}` the same call returns no errors, because
`globalContext` is never rebuilt. -/
theorem c5_counterexample :
    ((TypeChecker.checkTypes TypeChecker.newChecker c5AstBar "file.vex").1.map
        TypeErrorRec.message = ["Invalid field type: Foo"]) ∧
    (TypeChecker.checkTypes c5s1 c5AstBar "file.vex").1 = [] := by
  exact ⟨by decide, by decide⟩

/-- C5 (amended): `checkTypes` resets only the instance error list; the
`globalContext` type/function maps persist across invocations on the same
`TypeChecker` instance, so entries collected in one run (here the type
`Foo`) remain observable in later runs, and identical error lists are only
guaranteed from identical instance states. -/
theorem c5_amended :
    (mapGet c5s1.globalContext.types "Foo").isSome = true ∧
    c5s1.errors = [] ∧
    (TypeChecker.checkTypes c5s1 c5AstBar "file.vex").1 = [] ∧
    ((TypeChecker.checkTypes TypeChecker.newChecker c5AstBar "file.vex").1.map
        TypeErrorRec.message = ["Invalid field type: Foo"]) := by
  refine ⟨by decide, by decide, by decide, by decide⟩

/-- C6 (counterexample): the context a loop body is checked in is
`{ ...context, inLoop: true }` — a shallow object copy whose three maps are
the very same objects as the parent’s (equal ghost identities), not a fresh
copy; only `inLoop` differs. -/
theorem c6_counterexample :
    (TypeChecker.loopContextOf TypeChecker.newChecker.globalContext).vars.id =
      TypeChecker.newChecker.globalContext.vars.id ∧
    (TypeChecker.loopContextOf TypeChecker.newChecker.globalContext).functions.id =
      TypeChecker.newChecker.globalContext.functions.id ∧
    (TypeChecker.loopContextOf TypeChecker.newChecker.globalContext).types.id =
      TypeChecker.newChecker.globalContext.types.id ∧
    (TypeChecker.loopContextOf TypeChecker.newChecker.globalContext).inLoop = true := by
  exact ⟨rfl, rfl, rfl, rfl⟩

/-- C6 (amended): loop bodies are checked in a shallow copy of the parent
context that shares the parent’s maps (only `inLoop` differs), and `if`/
`match` bodies are checked in the parent context itself; nevertheless no
binding introduced inside a nested statement list is ever visible in a
sibling branch or the parent, because nested variable declarations carry no
statement `kind` and the checker adds no bindings while checking
statements: in `fn f() { if (true) { let x = 1; } else { x; } }` the `else`
branch still reports "Undefined variable: ’x’". -/
theorem c6_amended :
    ((TypeChecker.loopContextOf TypeChecker.newChecker.globalContext).vars.id =
      TypeChecker.newChecker.globalContext.vars.id) ∧
    ((TypeChecker.checkTypes TypeChecker.newChecker [c6FnF] "file.vex").1.map
        TypeErrorRec.message = ["Undefined variable: \x27x\x27"]) := by
  exact ⟨rfl, by decide⟩

/-- C7 (counterexample): for `let x: Foo;` with no declaration of `Foo`
anywhere (neither primitive nor a collected user type), `analyze` reports
no diagnostics at all — in particular no unknown-type error — because
`validateTypeExpression` accepts any base name matching
`/^[A-Z][a-zA-Z0-9_]*$/` without consulting the symbol table. -/
theorem c7_counterexample :
    (SemanticAnalyzer.analyze SemanticAnalyzer.newAnalyzer [c7VarXFoo] "file.vex").1 = [] := by
  decide

/-- C9 (counterexample): `synchronize` begins with one unconditional
`advance()`, which can consume a token of a recognized starter kind: on the
token stream `fn <eof>` at position 0 it consumes the `fn` token and stops
at position 1, contradicting the claim that it never consumes a token of
those kinds. -/
theorem c9_counterexample :
    Parser.synchronize 10 [c9FnTok, c9EofTok] 0 = Except.ok 1 ∧
    Parser.isSyncStarter c9FnTok.type = true := by
  exact ⟨rfl, rfl⟩

theorem syncLoop_eq_firstStop (tokens : List Token)
    (hlast : (tokens[tokens.length - 1]?).map Token.type = some TokenType.eofTok) :
    ∀ (f f' p : Nat), 1 ≤ p → p < tokens.length →
      tokens.length - p < f → tokens.length - p < f' →
      Parser.syncLoop f tokens p = Except.ok (Parser.firstStop f' tokens p) := by
  intro f
  induction f with
  | zero => intro f' p _ hplen hf _; omega
  | succ f ih =>
    intro f' p hp1 hplen hf hf'
    obtain ⟨g, rfl⟩ : ∃ g, f' = g + 1 := ⟨f' - 1, by omega⟩
    obtain ⟨tp, htp⟩ : ∃ tp, tokens[p]? = some tp := by
      rw [List.getElem?_eq_getElem hplen]; exact ⟨_, rfl⟩
    have hp0 : ¬ (p = 0) := by omega
    have hprevlen : p - 1 < tokens.length := by omega
    obtain ⟨tq, htq⟩ : ∃ tq, tokens[p - 1]? = some tq := by
      rw [List.getElem?_eq_getElem hprevlen]; exact ⟨_, rfl⟩
    by_cases heof : tp.type = TokenType.eofTok
    · simp [Parser.syncLoop, Parser.firstStop, Parser.isAtEnd, Parser.peekTok,
        Parser.syncStopB, htp, heof]
    · by_cases hsemi : tq.type = TokenType.semicolon
      · simp [Parser.syncLoop, Parser.firstStop, Parser.isAtEnd, Parser.peekTok,
          Parser.previousTok, Parser.syncStopB, htp, htq, hp0, heof, hsemi]
      · by_cases hstart : Parser.isSyncStarter tp.type = true
        · simp [Parser.syncLoop, Parser.firstStop, Parser.isAtEnd, Parser.peekTok,
            Parser.previousTok, Parser.syncStopB, htp, htq, hp0, heof, hsemi, hstart]
        · have hlt : p < tokens.length - 1 := by
            rcases Nat.lt_or_ge p (tokens.length - 1) with h | h
            · exact h
            · exfalso
              have hpe : p = tokens.length - 1 := by omega
              rw [hpe] at htp
              rw [htp] at hlast
              simp only [Option.map_some', Option.some.injEq] at hlast
              exact heof hlast
          have hrec := ih g (p + 1) (by omega) (by omega) (by omega) (by omega)
          simp [Parser.syncLoop, Parser.firstStop, Parser.isAtEnd, Parser.peekTok,
            Parser.previousTok, Parser.syncStopB, htp, htq, hp0, heof, hsemi, hstart, hrec]

/-- C9 (amended): under an EOF-terminated token stream, when the failure
position is inside the stream, `synchronize` performs one unconditional
advance (zero if already at EOF) — possibly consuming even a starter
token — and then stops at the first position where the just-consumed token
is a semicolon or the next token is a recognized construct starter or EOF;
during the skip loop itself it never consumes a starter. -/
theorem c9_amended (tokens : List Token) (current : Nat) (fuel : Nat)
    (hcur : current < tokens.length)
    (hlast : (tokens[tokens.length - 1]?).map Token.type = some TokenType.eofTok)
    (hfuel : tokens.length < fuel) :
    Parser.synchronize fuel tokens current = Except.ok (Parser.syncSpec tokens current) := by
  obtain ⟨tc, htc⟩ : ∃ t, tokens[current]? = some t := by
    rw [List.getElem?_eq_getElem hcur]; exact ⟨_, rfl⟩
  by_cases heof : tc.type = TokenType.eofTok
  · obtain ⟨g, rfl⟩ : ∃ g, fuel = g + 1 := ⟨fuel - 1, by omega⟩
    simp [Parser.synchronize, Parser.syncLoop, Parser.syncSpec, Parser.isAtEnd,
      Parser.peekTok, htc, heof]
  · have hlt : current < tokens.length - 1 := by
      rcases Nat.lt_or_ge current (tokens.length - 1) with h | h
      · exact h
      · exfalso
        have hpe : current = tokens.length - 1 := by omega
        rw [hpe] at htc
        rw [htc] at hlast
        simp only [Option.map_some', Option.some.injEq] at hlast
        exact heof hlast
    have hrec := syncLoop_eq_firstStop tokens hlast fuel (tokens.length + 1)
      (current + 1) (by omega) (by omega) (by omega) (by omega)
    simp [Parser.synchronize, Parser.syncSpec, Parser.isAtEnd, Parser.peekTok,
      htc, heof, hrec]

/-- C9 (witness): the amended characterization applied to the concrete
stream `x ; <eof>` from position 0: synchronize stops at position 2,
right after consuming the semicolon. -/
theorem c9_witness :
    (0 : Nat) < c9Toks.length ∧
    Parser.synchronize 4 c9Toks 0 = Except.ok (Parser.syncSpec c9Toks 0) ∧
    Parser.syncSpec c9Toks 0 = 2 :=
  ⟨by decide, c9_amended c9Toks 0 4 (by decide) (by decide) (by decide), by decide⟩

/-! ## C7: characterization of validateTypeExpression -/

namespace SemanticAnalyzer

mutual

/-- The diagnostics `validateTypeExpression` appends for an annotation: one
`unknown_type` entry for every (sub-)annotation whose base name neither
matches `/^[A-Z][a-zA-Z0-9_]*$/` nor is a primitive — independent of the
collected symbol mapping. -/
def unknownTypeDelta : TypeExpr → List SemanticError
  | .mk b gargs _ _ r _ _ =>
    (if ¬ isValidTypeName b && ¬ isPrimitiveType b then
      [⟨"Unknown type: \x27" ++ b ++ "\x27", ⟨⟨0, r.start⟩, ⟨0, r.stop⟩⟩,
        severityError, some "unknown_type"⟩]
     else []) ++
    (match gargs with
     | some l => unknownTypeDeltaList l
     | none => [])

def unknownTypeDeltaList : List TypeExpr → List SemanticError
  | [] => []
  | t :: ts => unknownTypeDelta t ++ unknownTypeDeltaList ts

end

end SemanticAnalyzer

mutual

theorem validate_errors_eq (te : TypeExpr) (uri : String) (st : AnalyzerState) :
    SemanticAnalyzer.validateTypeExpression te uri st =
      { st with errors := st.errors ++ SemanticAnalyzer.unknownTypeDelta te } := by
  cases te with
  | mk b gargs iR iM r l c =>
    cases gargs with
    | none =>
      simp only [SemanticAnalyzer.validateTypeExpression, SemanticAnalyzer.unknownTypeDelta]
      split <;> simp [SemanticAnalyzer.addError]
    | some ls =>
      simp only [SemanticAnalyzer.validateTypeExpression, SemanticAnalyzer.unknownTypeDelta]
      split <;> rw [validateList_errors_eq ls uri _] <;> simp [SemanticAnalyzer.addError]

theorem validateList_errors_eq (l : List TypeExpr) (uri : String) (st : AnalyzerState) :
    SemanticAnalyzer.validateTypeExprList l uri st =
      { st with errors := st.errors ++ SemanticAnalyzer.unknownTypeDeltaList l } := by
  match l with
  | [] =>
    simp only [SemanticAnalyzer.validateTypeExprList, SemanticAnalyzer.unknownTypeDeltaList]
    simp
  | t :: ts =>
    simp only [SemanticAnalyzer.validateTypeExprList, SemanticAnalyzer.unknownTypeDeltaList]
    rw [validate_errors_eq t uri st, validateList_errors_eq ts uri _]
    simp

end

/-- C7 (amended): `validateTypeExpression` appends an `unknown_type` error
for exactly the (sub-)annotations whose base name neither matches the
PascalCase regex `/^[A-Z][a-zA-Z0-9_]*$/` nor is one of the primitive
types; the user types collected in pass 1 play no role (the symbol mapping
is not consulted and the rest of the analyzer state is untouched), and the
check recurses through generic arguments. -/
theorem c7_amended : ∀ (te : TypeExpr) (uri : String) (st : AnalyzerState),
    SemanticAnalyzer.validateTypeExpression te uri st =
      { st with errors := st.errors ++ SemanticAnalyzer.unknownTypeDelta te } :=
  fun te uri st => validate_errors_eq te uri st

/-- C8: in pass 1, a declaration whose `(documentId, name)` key is already
present leaves the symbol mapping and the function-scope mapping unchanged,
appends exactly the one duplicate-declaration diagnostic, and contributes
nothing else. -/
theorem c8_theorem (st : AnalyzerState) (uri : String) (n : Node) (nm : String)
    (hname : SemanticAnalyzer.declName n = some nm)
    (hhas : SemanticAnalyzer.assocHas (SemanticAnalyzer.symKey uri nm) st.symbolTable = true) :
    SemanticAnalyzer.collectDeclarations n uri st =
      { st with errors := st.errors ++ SemanticAnalyzer.duplicateDiagnostic n } := by
  cases n with
  | funcDecl f =>
    obtain rfl : f.name = nm := by simpa [SemanticAnalyzer.declName] using hname
    simp [SemanticAnalyzer.collectDeclarations, SemanticAnalyzer.collectFunctionDeclaration,
      hhas, SemanticAnalyzer.addError, SemanticAnalyzer.duplicateDiagnostic]
  | structDecl s =>
    obtain rfl : s.name = nm := by simpa [SemanticAnalyzer.declName] using hname
    simp [SemanticAnalyzer.collectDeclarations, SemanticAnalyzer.collectStructDeclaration,
      hhas, SemanticAnalyzer.addError, SemanticAnalyzer.duplicateDiagnostic]
  | enumDecl e =>
    obtain rfl : e.name = nm := by simpa [SemanticAnalyzer.declName] using hname
    simp [SemanticAnalyzer.collectDeclarations, SemanticAnalyzer.collectEnumDeclaration,
      hhas, SemanticAnalyzer.addError, SemanticAnalyzer.duplicateDiagnostic]
  | varDecl v =>
    obtain rfl : v.name = nm := by simpa [SemanticAnalyzer.declName] using hname
    simp [SemanticAnalyzer.collectDeclarations, SemanticAnalyzer.collectVariableDeclaration,
      hhas, SemanticAnalyzer.addError, SemanticAnalyzer.duplicateDiagnostic]
  | stmt s => simp [SemanticAnalyzer.declName] at hname


/-! ## C10: every analyzer-own diagnostic is anchored at line 0 -/

/-- Either the diagnostic has a line-0 range (as `addError` builds it) or it
is one of the merged type-checker diagnostics (code `type_error`). -/
def diagOk (e : SemanticError) : Bool :=
  (e.range.start.line == 0 && e.range.stop.line == 0) || e.code == some "type_error"

def errsOk (st : AnalyzerState) : Prop :=
  ∀ e ∈ st.errors, diagOk e = true

theorem foldlPreserve {σ α : Type} (Q : σ → Prop) (f : σ → α → σ)
    (h : ∀ s a, Q s → Q (f s a)) :
    ∀ (l : List α) (s : σ), Q s → Q (l.foldl f s) := by
  intro l
  induction l with
  | nil => intro s hs; exact hs
  | cons a as ih => intro s hs; exact ih (f s a) (h s a hs)

theorem addError_ok (st : AnalyzerState) (m : String) (r : Range0) (sev : Nat)
    (c : Option String) (h : errsOk st) :
    errsOk (SemanticAnalyzer.addError st m r sev c) := by
  intro e he
  simp only [SemanticAnalyzer.addError, List.mem_append, List.mem_singleton] at he
  rcases he with he | rfl
  · exact h e he
  · simp [diagOk]

theorem errsOk_setTables (st : AnalyzerState) (t : List (String × SymbolInfo))
    (fs : List (String × List String)) (h : errsOk st) :
    errsOk { st with symbolTable := t, functionScopes := fs } := h

theorem collectFunctionDeclaration_ok (f : FunctionDecl) (uri : String)
    (st : AnalyzerState) (h : errsOk st) :
    errsOk (SemanticAnalyzer.collectFunctionDeclaration f uri st) := by
  simp only [SemanticAnalyzer.collectFunctionDeclaration]
  split
  · exact addError_ok _ _ _ _ _ h
  · have h1 : errsOk (if ¬ SemanticAnalyzer.isValidIdentifier f.name = true then
        SemanticAnalyzer.addError st ("Invalid function name: \x27" ++ f.name ++ "\x27")
          f.range SemanticAnalyzer.severityError (some "invalid_function_name")
      else st) := by
      split
      · exact addError_ok _ _ _ _ _ h
      · exact h
    exact foldlPreserve (fun (acc : List String × AnalyzerState) => errsOk acc.2)
      _ (fun s a hs => by
        dsimp only
        split
        · split
          · exact addError_ok _ _ _ _ _ (addError_ok _ _ _ _ _ hs)
          · exact addError_ok _ _ _ _ _ hs
        · split
          · exact addError_ok _ _ _ _ _ hs
          · exact hs) f.parameters _ h1

theorem collectStructDeclaration_ok (sd : StructDecl) (uri : String)
    (st : AnalyzerState) (h : errsOk st) :
    errsOk (SemanticAnalyzer.collectStructDeclaration sd uri st) := by
  simp only [SemanticAnalyzer.collectStructDeclaration]
  split
  · exact addError_ok _ _ _ _ _ h
  · have h1 : errsOk (if ¬ SemanticAnalyzer.isValidTypeName sd.name = true then
        SemanticAnalyzer.addError st ("Invalid struct name: \x27" ++ sd.name ++
          "\x27 (should be PascalCase)") sd.range SemanticAnalyzer.severityError
          (some "invalid_struct_name")
      else st) := by
      split
      · exact addError_ok _ _ _ _ _ h
      · exact h
    exact foldlPreserve (fun (acc : List String × AnalyzerState) => errsOk acc.2)
      _ (fun s a hs => by
        dsimp only
        split
        · split
          · exact addError_ok _ _ _ _ _ (addError_ok _ _ _ _ _ hs)
          · exact addError_ok _ _ _ _ _ hs
        · split
          · exact addError_ok _ _ _ _ _ hs
          · exact hs) sd.fields _ h1

theorem collectEnumDeclaration_ok (ed : EnumDecl) (uri : String)
    (st : AnalyzerState) (h : errsOk st) :
    errsOk (SemanticAnalyzer.collectEnumDeclaration ed uri st) := by
  simp only [SemanticAnalyzer.collectEnumDeclaration]
  split
  · exact addError_ok _ _ _ _ _ h
  · have h1 : errsOk (if ¬ SemanticAnalyzer.isValidTypeName ed.name = true then
        SemanticAnalyzer.addError st ("Invalid enum name: \x27" ++ ed.name ++
          "\x27 (should be PascalCase)") ed.range SemanticAnalyzer.severityError
          (some "invalid_enum_name")
      else st) := by
      split
      · exact addError_ok _ _ _ _ _ h
      · exact h
    exact foldlPreserve (fun (acc : List String × AnalyzerState) => errsOk acc.2)
      _ (fun s a hs => by
        dsimp only
        split
        · split
          · exact addError_ok _ _ _ _ _ (addError_ok _ _ _ _ _ hs)
          · exact addError_ok _ _ _ _ _ hs
        · split
          · exact addError_ok _ _ _ _ _ hs
          · exact hs) ed.variants _ h1

theorem collectVariableDeclaration_ok (v : VariableDecl) (uri : String)
    (st : AnalyzerState) (h : errsOk st) :
    errsOk (SemanticAnalyzer.collectVariableDeclaration v uri st) := by
  simp only [SemanticAnalyzer.collectVariableDeclaration]
  split
  · exact addError_ok _ _ _ _ _ h
  · split
    · split
      · exact addError_ok _ _ _ _ _ (addError_ok _ _ _ _ _ h)
      · exact addError_ok _ _ _ _ _ h
    · split
      · exact addError_ok _ _ _ _ _ h
      · exact h

theorem collectStatementDeclarations_ok (s : Stmt) (uri : String)
    (st : AnalyzerState) (h : errsOk st) :
    errsOk (SemanticAnalyzer.collectStatementDeclarations s uri st) := by
  simp only [SemanticAnalyzer.collectStatementDeclarations]
  split
  · split
    · exact collectFunctionDeclaration_ok _ _ _ h
    · exact h
  · split
    · exact collectStructDeclaration_ok _ _ _ h
    · exact h
  · split
    · exact collectEnumDeclaration_ok _ _ _ h
    · exact h
  · exact h

theorem collectDeclarations_ok (n : Node) (uri : String)
    (st : AnalyzerState) (h : errsOk st) :
    errsOk (SemanticAnalyzer.collectDeclarations n uri st) := by
  cases n with
  | funcDecl f => exact collectFunctionDeclaration_ok f uri st h
  | structDecl s => exact collectStructDeclaration_ok s uri st h
  | enumDecl e => exact collectEnumDeclaration_ok e uri st h
  | varDecl v => exact collectVariableDeclaration_ok v uri st h
  | stmt s => exact collectStatementDeclarations_ok s uri st h

mutual

theorem validateTypeExpression_ok (te : TypeExpr) (uri : String)
    (st : AnalyzerState) (h : errsOk st) :
    errsOk (SemanticAnalyzer.validateTypeExpression te uri st) := by
  cases te with
  | mk b gargs iR iM r l c =>
    cases gargs with
    | none =>
      simp only [SemanticAnalyzer.validateTypeExpression]
      split
      · exact addError_ok _ _ _ _ _ h
      · exact h
    | some ls =>
      simp only [SemanticAnalyzer.validateTypeExpression]
      split
      · exact validateTypeExprList_ok ls uri _ (addError_ok _ _ _ _ _ h)
      · exact validateTypeExprList_ok ls uri _ h

theorem validateTypeExprList_ok (l : List TypeExpr) (uri : String)
    (st : AnalyzerState) (h : errsOk st) :
    errsOk (SemanticAnalyzer.validateTypeExprList l uri st) := by
  cases l with
  | nil =>
    simp only [SemanticAnalyzer.validateTypeExprList]
    exact h
  | cons t ts =>
    simp only [SemanticAnalyzer.validateTypeExprList]
    exact validateTypeExprList_ok ts uri _ (validateTypeExpression_ok t uri st h)

end

theorem validateIdentifier_ok (name : String) (r : Range0) (uri : String)
    (st : AnalyzerState) (h : errsOk st) :
    errsOk (SemanticAnalyzer.validateIdentifier name r uri st) := by
  simp only [SemanticAnalyzer.validateIdentifier]
  split
  · exact addError_ok _ _ _ _ _ h
  · exact h

theorem pass2_ok : ∀ fuel : Nat,
    (∀ (n : Node) (uri : String) (st : AnalyzerState), errsOk st →
      errsOk (SemanticAnalyzer.analyzeStatement fuel n uri st)) ∧
    (∀ (l : List Node) (uri : String) (st : AnalyzerState), errsOk st →
      errsOk (SemanticAnalyzer.analyzeStatementList fuel l uri st)) ∧
    (∀ (cs : List MatchCase) (uri : String) (st : AnalyzerState), errsOk st →
      errsOk (SemanticAnalyzer.analyzeMatchCases fuel cs uri st)) ∧
    (∀ (e : Expr) (uri : String) (st : AnalyzerState), errsOk st →
      errsOk (SemanticAnalyzer.analyzeExpression fuel e uri st)) ∧
    (∀ (es : List Expr) (uri : String) (st : AnalyzerState), errsOk st →
      errsOk (SemanticAnalyzer.analyzeExprList fuel es uri st)) := by
  intro fuel
  induction fuel with
  | zero =>
    refine ⟨?_, ?_, ?_, ?_, ?_⟩
    · intro n uri st h
      simpa [SemanticAnalyzer.analyzeStatement] using h
    · intro l uri st h
      simpa [SemanticAnalyzer.analyzeStatementList] using h
    · intro cs uri st h
      simpa [SemanticAnalyzer.analyzeMatchCases] using h
    · intro e uri st h
      simpa [SemanticAnalyzer.analyzeExpression] using h
    · intro es uri st h
      simpa [SemanticAnalyzer.analyzeExprList] using h
  | succ f ih =>
    obtain ⟨ihS, ihSL, ihMC, ihE, ihEL⟩ := ih
    refine ⟨?_, ?_, ?_, ?_, ?_⟩
    · intro n uri st h
      cases n with
      | stmt s =>
        simp only [SemanticAnalyzer.analyzeStatement]
        split
        all_goals repeat' split
        all_goals solve_by_elim
      | funcDecl f2 => simpa [SemanticAnalyzer.analyzeStatement] using h
      | structDecl s2 => simpa [SemanticAnalyzer.analyzeStatement] using h
      | enumDecl e2 => simpa [SemanticAnalyzer.analyzeStatement] using h
      | varDecl v2 => simpa [SemanticAnalyzer.analyzeStatement] using h
    · intro l uri st h
      cases l with
      | nil => simpa [SemanticAnalyzer.analyzeStatementList] using h
      | cons n ns =>
        simp only [SemanticAnalyzer.analyzeStatementList]
        solve_by_elim
    · intro cs uri st h
      cases cs with
      | nil => simpa [SemanticAnalyzer.analyzeMatchCases] using h
      | cons c cs2 =>
        simp only [SemanticAnalyzer.analyzeMatchCases]
        repeat' split
        all_goals solve_by_elim
    · intro e uri st h
      cases e with
      | mk k op l r v rng ln col =>
        simp only [SemanticAnalyzer.analyzeExpression]
        split
        all_goals repeat' split
        all_goals solve_by_elim [validateIdentifier_ok]
    · intro es uri st h
      cases es with
      | nil => simpa [SemanticAnalyzer.analyzeExprList] using h
      | cons e es2 =>
        simp only [SemanticAnalyzer.analyzeExprList]
        solve_by_elim

theorem analyzeFunction_ok (fuel : Nat) (f : FunctionDecl) (uri : String)
    (st : AnalyzerState) (h : errsOk st) :
    errsOk (SemanticAnalyzer.analyzeFunction fuel f uri st) := by
  simp only [SemanticAnalyzer.analyzeFunction]
  have h1 := (pass2_ok fuel).2.1 f.body uri st h
  have h2 : errsOk (match f.returnType with
    | some rt => SemanticAnalyzer.validateTypeExpression rt uri
        (SemanticAnalyzer.analyzeStatementList fuel f.body uri st)
    | none => SemanticAnalyzer.analyzeStatementList fuel f.body uri st) := by
    split
    · exact validateTypeExpression_ok _ _ _ h1
    · exact h1
  exact foldlPreserve errsOk _
    (fun s a hs => validateTypeExpression_ok _ _ _ hs) f.parameters _ h2

theorem analyzeStruct_ok (sd : StructDecl) (uri : String)
    (st : AnalyzerState) (h : errsOk st) :
    errsOk (SemanticAnalyzer.analyzeStruct sd uri st) := by
  simp only [SemanticAnalyzer.analyzeStruct]
  split
  · exact foldlPreserve errsOk _
      (fun s a hs => by
        split
        · exact validateTypeExpression_ok _ _ _ hs
        · exact hs) _ _
      (foldlPreserve errsOk _
        (fun s a hs => validateTypeExpression_ok _ _ _ hs) sd.fields st h)
  · exact foldlPreserve errsOk _
      (fun s a hs => validateTypeExpression_ok _ _ _ hs) sd.fields st h

theorem analyzeEnum_ok (ed : EnumDecl) (uri : String)
    (st : AnalyzerState) (h : errsOk st) :
    errsOk (SemanticAnalyzer.analyzeEnum ed uri st) := by
  simp only [SemanticAnalyzer.analyzeEnum]
  split
  · exact foldlPreserve errsOk _
      (fun s a hs => by
        split
        · exact validateTypeExpression_ok _ _ _ hs
        · exact hs) _ _
      (foldlPreserve errsOk _
        (fun s a hs => by
          split
          · exact foldlPreserve errsOk _
              (fun s2 a2 hs2 => validateTypeExpression_ok _ _ _ hs2) _ _ hs
          · exact hs) ed.variants st h)
  · exact foldlPreserve errsOk _
      (fun s a hs => by
        split
        · exact foldlPreserve errsOk _
            (fun s2 a2 hs2 => validateTypeExpression_ok _ _ _ hs2) _ _ hs
        · exact hs) ed.variants st h

theorem analyzeVariable_ok (fuel : Nat) (v : VariableDecl) (uri : String)
    (st : AnalyzerState) (h : errsOk st) :
    errsOk (SemanticAnalyzer.analyzeVariable fuel v uri st) := by
  simp only [SemanticAnalyzer.analyzeVariable]
  have h1 : errsOk (match v.varType with
    | some t => SemanticAnalyzer.validateTypeExpression t uri st
    | none => st) := by
    split
    · exact validateTypeExpression_ok _ _ _ h
    · exact h
  split
  · exact (pass2_ok fuel).2.2.2.1 _ uri _ h1
  · exact h1

theorem analyzeNode_ok (fuel : Nat) (n : Node) (uri : String)
    (st : AnalyzerState) (h : errsOk st) :
    errsOk (SemanticAnalyzer.analyzeNode fuel n uri st) := by
  cases n with
  | funcDecl f => exact analyzeFunction_ok fuel f uri st h
  | structDecl s => exact analyzeStruct_ok s uri st h
  | enumDecl e => exact analyzeEnum_ok e uri st h
  | varDecl v => exact analyzeVariable_ok fuel v uri st h
  | stmt s => exact (pass2_ok fuel).1 _ uri st h

theorem analyze_state_ok (st0 : AnalyzerState) (ast : List Node) (uri : String) :
    errsOk (SemanticAnalyzer.analyze st0 ast uri).2 := by
  simp only [SemanticAnalyzer.analyze]
  have h0 : errsOk { st0 with errors := [], symbolTable := [], functionScopes := [] } := by
    intro e he
    simp at he
  have h1 := foldlPreserve errsOk _
    (fun s a hs => collectDeclarations_ok a uri s hs) ast _ h0
  have h2 := foldlPreserve errsOk _
    (fun s a hs => analyzeNode_ok (nodeListSize ast + 1) a uri s hs) ast _ h1
  have h3 : errsOk { (ast.foldl (fun st n => SemanticAnalyzer.analyzeNode
      (nodeListSize ast + 1) n uri st) (ast.foldl (fun st n =>
        SemanticAnalyzer.collectDeclarations n uri st)
        { st0 with errors := [], symbolTable := [], functionScopes := [] })) with
      tc := (TypeChecker.checkTypes (ast.foldl (fun st n =>
        SemanticAnalyzer.analyzeNode (nodeListSize ast + 1) n uri st)
        (ast.foldl (fun st n => SemanticAnalyzer.collectDeclarations n uri st)
          { st0 with errors := [], symbolTable := [], functionScopes := [] })).tc ast uri).2 } := h2
  exact foldlPreserve errsOk _
    (fun s te hs => by
      intro e he
      simp only [List.mem_append, List.mem_singleton] at he
      rcases he with he | rfl
      · exact hs e he
      · simp [diagOk]) _ _ h3

theorem analyze_fst (st0 : AnalyzerState) (ast : List Node) (uri : String) :
    (SemanticAnalyzer.analyze st0 ast uri).1 =
      (SemanticAnalyzer.analyze st0 ast uri).2.errors.map
        (fun e => ⟨e.severity, e.range, e.message, "vextlang", e.code⟩) := rfl

/-- C8 (witness): a concrete duplicate `let a;` against a symbol table that
already holds the key `u:a`. -/
theorem c8_witness :
    SemanticAnalyzer.declName c8Node = some "a" ∧
    SemanticAnalyzer.assocHas (SemanticAnalyzer.symKey "u" "a") c8St.symbolTable = true ∧
    SemanticAnalyzer.collectDeclarations c8Node "u" c8St =
      { c8St with errors := c8St.errors ++ SemanticAnalyzer.duplicateDiagnostic c8Node } :=
  ⟨by decide, by decide, c8_theorem c8St "u" c8Node "a" (by decide) (by decide)⟩

/-- C10: every diagnostic produced by the analyzer’s own pass-1/pass-2
checks carries a range whose start and end line are 0 and whose character
fields are the node’s byte offsets (the shape `addError` builds); only the
diagnostics merged from the type checker (code `type_error`) carry a line
number, derived from the node’s source line as `line - 1`.  The universal
part states the line-0 property for every non-`type_error` diagnostic of
any run; the concrete part exhibits both shapes: an
`invalid_variable_name` diagnostic with characters 5..9 (the node’s byte
offsets, line 0) and a merged `type_error` diagnostic at line `3 - 1 = 2`. -/
theorem c10_theorem :
    (∀ (st : AnalyzerState) (ast : List Node) (uri : String),
      ((SemanticAnalyzer.analyze st ast uri).1.filter
          (fun d => !(d.code == some "type_error"))).all
        (fun d => d.range.start.line == 0 && d.range.stop.line == 0) = true) ∧
    (SemanticAnalyzer.analyze SemanticAnalyzer.newAnalyzer [c10BadVar, c10Brk] "file.vex").1 =
      [⟨1, ⟨⟨0, 5⟩, ⟨0, 9⟩⟩, "Invalid variable name: \x271bad\x27", "vextlang",
        some "invalid_variable_name"⟩,
       ⟨1, ⟨⟨2, 0⟩, ⟨2, 1⟩⟩, "break statement outside of loop", "vextlang",
        some "type_error"⟩] := by
  constructor
  · intro st ast uri
    rw [List.all_eq_true]
    intro d hd
    rw [List.mem_filter] at hd
    obtain ⟨hdm, hdp⟩ := hd
    rw [analyze_fst] at hdm
    obtain ⟨e, he, rfl⟩ := List.mem_map.mp hdm
    have hok := analyze_state_ok st ast uri e he
    simp only [diagOk, Bool.or_eq_true, Bool.and_eq_true] at hok
    rcases hok with ⟨h1, h2⟩ | hcode
    · exact (Bool.and_eq_true _ _).mpr ⟨h1, h2⟩
    · exfalso
      simp only [hcode] at hdp
      simp at hdp
  · decide

end VL
